import Mathlib

/-!
Shallow embedding of the district-office extraction pipeline
(`src/district_offices`): the SQLite-backed record store
(`storage/sqlite_db.py`, `storage/models.py`), the validated-office
upsert wrapper (`__init__.py:store_district_office`), the sync engine
(`storage/postgres_sync.py`) and the browser-validation orchestrator
(`validation/server.py`, `validation/interface.py`).

Tables are lists of rows; every operation that the Python code runs in
its own committed session is a pure function from the store to the
store.  Wall-clock reads (`datetime.utcnow()`, `time.time()`) are
modelled by an explicit `now : Nat` argument.  An operation that can
raise returns `Except` or a success flag mirroring the source.
-/

namespace DistrictOffices

/-- Extraction lifecycle states; the CHECK constraint in
`models.py:Extraction` admits exactly these five strings. -/
inductive ExtractionStatus where
  | pending
  | processing
  | validated
  | rejected
  | failed
deriving DecidableEq, Repr

/-- Sync-log states; CHECK constraint in `models.py:SyncLog`. -/
inductive SyncStatus where
  | started
  | completed
  | failed
deriving DecidableEq, Repr

/-- Row of the local `members` table (`models.py:Member`). -/
structure Member where
  bioguideid : String
  currentmember : Bool
  officialwebsiteurl : Option String
  name : Option String
  st : Option String
deriving DecidableEq, Repr

/-- Row of the `extractions` table (`models.py:Extraction`). -/
structure Extraction where
  id : Nat
  bioguide_id : String
  status : ExtractionStatus
  extraction_timestamp : Nat
  validation_timestamp : Option Nat
  source_url : Option String
  priority : Int
  error_message : Option String
  retry_count : Nat
  created_at : Nat
  updated_at : Nat
deriving DecidableEq, Repr

/-- The office-field dictionary shape handed around by the staging layer
(`__init__.py:StagingManager.get_extraction_data` projects exactly these
nine keys out of an `ExtractedOffice` row).  A `none` models a dict value
of Python `None`; the keys themselves are always present in the dicts the
staging layer produces. -/
structure OfficeDict where
  address : Option String
  suite : Option String
  building : Option String
  city : Option String
  st : Option String
  zip : Option String
  phone : Option String
  fax : Option String
  hours : Option String
deriving DecidableEq, Repr

/-- Row of the `extracted_offices` table (`models.py:ExtractedOffice`). -/
structure ExtractedOffice where
  id : Nat
  extraction_id : Nat
  office_type : Option String
  fields : OfficeDict
deriving DecidableEq, Repr

/-- Row of the `validated_offices` table (`models.py:ValidatedOffice`);
`office_id` is the primary key. -/
structure ValidatedOffice where
  office_id : String
  bioguide_id : String
  address : Option String
  suite : Option String
  building : Option String
  city : Option String
  st : Option String
  zip : Option String
  phone : Option String
  fax : Option String
  hours : Option String
  validated_at : Nat
  synced_to_upstream : Bool
  synced_at : Option Nat
deriving DecidableEq, Repr

/-- Row of the `artifacts` table (`models.py:Artifact`); `content` is the
stored blob, kept as a string. -/
structure Artifact where
  id : Nat
  extraction_id : Nat
  artifact_type : String
  filename : String
  content : String
  content_type : Option String
  file_size : Nat
  compressed : Bool
  created_at : Nat
deriving DecidableEq, Repr

/-- Row of the `sync_log` table (`models.py:SyncLog`). -/
structure SyncLog where
  sync_type : String
  sync_direction : String
  records_processed : Nat
  status : SyncStatus
  error_message : Option String
  started_at : Nat
  completed_at : Option Nat
deriving DecidableEq, Repr

/-- Row of the upstream PostgreSQL `district_offices` table
(`models.py:UpstreamDistrictOffice`); `office_id` is the primary key. -/
structure UpstreamOffice where
  office_id : String
  bioguide_id : String
  address : Option String
  suite : Option String
  building : Option String
  city : Option String
  st : Option String
  zip : Option String
  phone : Option String
  fax : Option String
  hours : Option String
deriving DecidableEq, Repr

/-- The local SQLite store (`sqlite_db.py:SQLiteDatabase`): one list per
table, plus the autoincrement counters for the surrogate keys.
Autoincrement ids start at 1, as in SQLite. -/
structure Db where
  members : List Member
  extractions : List Extraction
  extracted_offices : List ExtractedOffice
  validated_offices : List ValidatedOffice
  artifacts : List Artifact
  sync_logs : List SyncLog
  next_extraction_id : Nat
  next_artifact_id : Nat
deriving DecidableEq, Repr

/-- `session.query(Extraction).get(extraction_id)`. -/
def findExtraction (db : Db) (extraction_id : Nat) : Option Extraction :=
  db.extractions.find? (fun e => e.id == extraction_id)

/-- `session.query(ValidatedOffice).filter_by(office_id=...).first()`. -/
def findOffice (db : Db) (office_id : String) : Option ValidatedOffice :=
  db.validated_offices.find? (fun o => o.office_id == office_id)

/-- `sqlite_db.py:SQLiteDatabase.update_extraction_status` (lines
229-250): look the row up by id; when present, overwrite `status`,
refresh `updated_at`, set `error_message` when the argument is truthy,
stamp `validation_timestamp` when the new status is `validated`, and
return `True`; when absent return `False`.  There is no check that the
current status admits the transition. -/
def Db.update_extraction_status (db : Db) (extraction_id : Nat)
    (status : ExtractionStatus) (error_message : Option String) (now : Nat) :
    Db × Bool :=
  match findExtraction db extraction_id with
  | none => (db, false)
  | some _ =>
    ({ db with extractions := db.extractions.map (fun e =>
        if e.id == extraction_id then
          { e with
            status := status
            updated_at := now
            error_message :=
              match error_message with
              | some m => if m = "" then e.error_message else some m
              | none => e.error_message
            validation_timestamp :=
              if status = .validated then some now else e.validation_timestamp }
        else e) },
     true)

/-- `sqlite_db.py:SQLiteDatabase.create_extraction` (lines 146-175):
raise when the bioguide id has no member row, otherwise insert a fresh
`pending` extraction and return its id. -/
def Db.create_extraction (db : Db) (bioguide_id : String)
    (source_url : String) (priority : Int) (now : Nat) :
    Except String (Db × Nat) :=
  match db.members.find? (fun m => m.bioguideid == bioguide_id) with
  | none => .error ("Bioguide ID " ++ bioguide_id ++ " not found in members table.")
  | some _ =>
    let eid := db.next_extraction_id
    .ok ({ db with
            extractions := db.extractions ++ [{
              id := eid
              bioguide_id := bioguide_id
              status := .pending
              extraction_timestamp := now
              validation_timestamp := none
              source_url := some source_url
              priority := priority
              error_message := none
              retry_count := 0
              created_at := now
              updated_at := now }]
            next_extraction_id := eid + 1 },
          eid)

/-- The artifact-type CHECK constraint of `models.py:Artifact`
(line 186): only these four strings are insertable. -/
def artifactTypeAllowed (t : String) : Bool :=
  t == "html" || t == "cleaned_html" || t == "validation_html" ||
    t == "llm_response"

/-- `sqlite_db.py:SQLiteDatabase.store_artifact`: append-only insert of a
binary artifact row; an `artifact_type` outside the CHECK constraint of
`models.py:Artifact` makes the insert raise IntegrityError (modelled as
`.error`). -/
def Db.store_artifact (db : Db) (extraction_id : Nat) (artifact_type : String)
    (filename : String) (content : String) (content_type : Option String)
    (now : Nat) : Except String (Db × Nat) :=
  if artifactTypeAllowed artifact_type then
    let aid := db.next_artifact_id
    .ok ({ db with
            artifacts := db.artifacts ++ [{
              id := aid
              extraction_id := extraction_id
              artifact_type := artifact_type
              filename := filename
              content := content
              content_type := content_type
              file_size := content.length
              compressed := false
              created_at := now }]
            next_artifact_id := aid + 1 },
          aid)
  else
    .error "CHECK constraint failed: artifacts"

/-- `sqlite_db.py:SQLiteDatabase.create_validated_office`: a plain
`session.add`; inserting a second row with an existing `office_id`
violates the primary key and raises (modelled as `.error`). -/
def Db.create_validated_office (db : Db) (office : ValidatedOffice) :
    Except String Db :=
  if db.validated_offices.any (fun o => o.office_id == office.office_id) then
    .error "UNIQUE constraint failed: validated_offices.office_id"
  else
    .ok { db with validated_offices := db.validated_offices ++ [office] }

/-- Comparison used by `ORDER BY validated_at`. -/
def validatedAtLE (a b : ValidatedOffice) : Prop :=
  a.validated_at ≤ b.validated_at

instance : DecidableRel validatedAtLE :=
  fun a b => Nat.decLe a.validated_at b.validated_at

instance : IsTotal ValidatedOffice validatedAtLE :=
  ⟨fun a b => Nat.le_total a.validated_at b.validated_at⟩

instance : IsTrans ValidatedOffice validatedAtLE :=
  ⟨fun _ _ _ hab hbc => Nat.le_trans hab hbc⟩

/-- `sqlite_db.py:SQLiteDatabase.get_unsynced_offices` (lines 341-350):
rows with `synced_to_upstream = false`, ordered by `validated_at`
(stable sort, as a SQLite ORDER BY on the scan order). -/
def Db.get_unsynced_offices (db : Db) : List ValidatedOffice :=
  List.insertionSort validatedAtLE
    (db.validated_offices.filter (fun o => o.synced_to_upstream == false))

/-- The update applied to each row by
`sqlite_db.py:SQLiteDatabase.mark_offices_synced`. -/
def markedOffice (o : ValidatedOffice) (now : Nat) : ValidatedOffice :=
  { o with synced_to_upstream := true, synced_at := some now }

/-- `sqlite_db.py:SQLiteDatabase.mark_offices_synced` (lines 352-365):
bulk `UPDATE ... WHERE office_id IN (...)`. -/
def Db.mark_offices_synced (db : Db) (office_ids : List String) (now : Nat) :
    Db :=
  { db with validated_offices := db.validated_offices.map (fun o =>
      if office_ids.contains o.office_id then markedOffice o now else o) }

/-- `sqlite_db.py:SQLiteDatabase.log_sync_operation` (lines 513-542):
append one sync-log row; `completed_at` is stamped only for status
`completed`. -/
def Db.log_sync_operation (db : Db) (sync_type sync_direction : String)
    (records_processed : Nat) (status : SyncStatus)
    (error_message : Option String) (now : Nat) : Db :=
  { db with sync_logs := db.sync_logs ++ [{
      sync_type := sync_type
      sync_direction := sync_direction
      records_processed := records_processed
      status := status
      error_message := error_message
      started_at := now
      completed_at := if status = .completed then some now else none }] }

/-- Input dictionary of `__init__.py:store_district_office`; `office_id`
is `none` when the dict carries no explicit `office_id` key (the
validation server never supplies one). -/
structure OfficeData where
  office_id : Option String
  bioguide_id : String
  fields : OfficeDict
deriving DecidableEq, Repr

/-- Python renders `None` as the string `None` inside an f-string. -/
def fmtOpt : Option String → String
  | some s => s
  | none => "None"

/-- The office key computed by `__init__.py:store_district_office`
(line 94): the explicit `office_id` when supplied, otherwise
`f"{bioguide_id}-{city}"`. -/
def storeOfficeId (d : OfficeData) : String :=
  match d.office_id with
  | some oid => oid
  | none => d.bioguide_id ++ "-" ++ fmtOpt d.fields.city

/-- The `ValidatedOffice` row written by
`__init__.py:store_district_office`: on update every contact field is
overwritten, `validated_at` is refreshed and the sync flags are reset;
on insert the model defaults produce the same row. -/
def officeFromData (office_id : String) (d : OfficeData) (now : Nat) :
    ValidatedOffice :=
  { office_id := office_id
    bioguide_id := d.bioguide_id
    address := d.fields.address
    suite := d.fields.suite
    building := d.fields.building
    city := d.fields.city
    st := d.fields.st
    zip := d.fields.zip
    phone := d.fields.phone
    fax := d.fields.fax
    hours := d.fields.hours
    validated_at := now
    synced_to_upstream := false
    synced_at := none }

/-- `__init__.py:store_district_office` (lines 90-138): derive the
office key, then upsert into `validated_offices`; returns `True` on
success. -/
def store_district_office (db : Db) (d : OfficeData) (now : Nat) :
    Db × Bool :=
  let oid := storeOfficeId d
  match findOffice db oid with
  | some _ =>
    ({ db with validated_offices := db.validated_offices.map (fun o =>
        if o.office_id == oid then officeFromData oid d now else o) },
     true)
  | none =>
    ({ db with validated_offices := db.validated_offices ++ [officeFromData oid d now] },
     true)

/-- Fuel-driven worker for `chunks`; the fuel is the input length, which
suffices whenever the chunk size is positive. -/
def chunksGo (bs : Nat) : Nat → List α → List (List α)
  | _, [] => []
  | 0, _ => []
  | fuel + 1, l => l.take bs :: chunksGo bs fuel (l.drop bs)

/-- The batch split performed by `range(0, len(offices_data), batch_size)`
in `postgres_sync.py:export_validated_offices`. -/
def chunks (bs : Nat) (l : List α) : List (List α) :=
  chunksGo bs l.length l

/-- Projection of a local `ValidatedOffice` row to the upstream
`district_offices` row shape exported by
`postgres_sync.py:export_validated_offices`. -/
def voToUpstream (o : ValidatedOffice) : UpstreamOffice :=
  { office_id := o.office_id
    bioguide_id := o.bioguide_id
    address := o.address
    suite := o.suite
    building := o.building
    city := o.city
    st := o.st
    zip := o.zip
    phone := o.phone
    fax := o.fax
    hours := o.hours }

/-- The per-office upsert of `export_validated_offices` (lines 272-305):
update the upstream row with the same `office_id` when it exists,
otherwise insert. -/
def upsertUpstream (pg : List UpstreamOffice) (u : UpstreamOffice) :
    List UpstreamOffice :=
  if pg.any (fun x => x.office_id == u.office_id) then
    pg.map (fun x => if x.office_id == u.office_id then u else x)
  else
    pg ++ [u]

deriving instance DecidableEq for Except

/-- Outcome of one `export_validated_offices` call: final local store,
final durable upstream table, and the Python return value
(`.error` models the re-raised exception). -/
structure ExportOutcome where
  db : Db
  pg : List UpstreamOffice
  res : Except String Nat
deriving DecidableEq, Repr

/-- The batch loop of `postgres_sync.py:export_validated_offices` (lines
268-326).  `failK` is the failure injection: the upstream
`pg_session.commit()` raises exactly on batch index `failK`, leaving
that batch's upstream writes uncommitted.  On each committed batch the
batch's rows are marked synced locally; on failure the handler logs a
`failed` sync row with the count exported so far and re-raises. -/
def exportBatches (failK : Option Nat) (now : Nat) :
    Db → List UpstreamOffice → List (List ValidatedOffice) → Nat → Nat →
    ExportOutcome
  | sdb, pg, [], _, exported =>
    { db := sdb.log_sync_operation "offices_export" "to_upstream" exported
        .completed none now
      pg := pg
      res := .ok exported }
  | sdb, pg, batch :: rest, batchIdx, exported =>
    if failK == some batchIdx then
      { db := sdb.log_sync_operation "offices_export" "to_upstream" exported
          .failed (some "commit failed") now
        pg := pg
        res := .error "commit failed" }
    else
      exportBatches failK now
        (sdb.mark_offices_synced (batch.map (fun o => o.office_id)) now)
        (batch.foldl (fun acc o => upsertUpstream acc (voToUpstream o)) pg)
        rest (batchIdx + 1) (exported + batch.length)

/-- `postgres_sync.py:PostgreSQLSyncManager.export_validated_offices`
(lines 178-341): log `started`, select the unsynced offices (the re-query
by id at lines 233-252 returns the same rows), return 0 with a
`completed` log when there are none, otherwise run the batch loop. -/
def export_validated_offices (db : Db) (pg : List UpstreamOffice)
    (batch_size : Nat) (failK : Option Nat) (now : Nat) : ExportOutcome :=
  let db1 := db.log_sync_operation "offices_export" "to_upstream" 0
    .started none now
  let offices := db1.get_unsynced_offices
  if offices.isEmpty then
    { db := db1.log_sync_operation "offices_export" "to_upstream" 0
        .completed none now
      pg := pg
      res := .ok 0 }
  else
    exportBatches failK now db1 pg (chunks batch_size offices) 0 0

/-- The timestamped office key built by
`validation/interface.py:_save_validated_data` (line 525):
`f"{bioguide_id}-{office.get('city', 'unknown')}-{timestamp}"` with the
`city` key always present in the staging dicts. -/
def saveValidatedOfficeId (bioguide_id : String) (city : Option String)
    (timestamp : Nat) : String :=
  bioguide_id ++ "-" ++ fmtOpt city ++ "-" ++ toString timestamp

/-- The insert loop at the end of `_save_validated_data` (lines 523-532):
each office is inserted with `create_validated_office`; each insert is
its own committed session, so on a raise the earlier inserts persist and
the loop stops (success flag `false`). -/
def createValidatedOffices (bioguide_id : String) (now : Nat) :
    Db → List OfficeDict → Db × Bool
  | db, [] => (db, true)
  | db, office :: rest =>
    let row : ValidatedOffice :=
      { office_id := saveValidatedOfficeId bioguide_id office.city now
        bioguide_id := bioguide_id
        address := office.address
        suite := office.suite
        building := office.building
        city := office.city
        st := office.st
        zip := office.zip
        phone := office.phone
        fax := office.fax
        hours := office.hours
        validated_at := now
        synced_to_upstream := false
        synced_at := none }
    match db.create_validated_office row with
    | .ok db2 => createValidatedOffices bioguide_id now db2 rest
    | .error _ => (db, false)

/-- `validation/interface.py:ValidationInterface._save_validated_data`
(lines 484-534): when an extraction id is supplied, first mark the
extraction `validated`, then store a `validation_result` artifact — an
insert that always violates the artifacts CHECK constraint
(`validation_result` is not an admitted artifact_type) and so raises,
aborting before any office row is written; with no extraction id (the
orchestrator path), insert one `ValidatedOffice` row per office with the
timestamped key.  The artifact content (a JSON dump) is summarised as a
plain string.  Returns the store plus a success flag (`false` models a
raise escaping the method). -/
def saveValidatedData (db : Db) (bioguide_id : String)
    (offices : List OfficeDict) (url : Option String)
    (extraction_id : Option Nat) (now : Nat) : Db × Bool :=
  match extraction_id with
  | some eid =>
    let db2 := (db.update_extraction_status eid .validated none now).1
    match db2.store_artifact eid "validation_result"
        (bioguide_id ++ "_" ++ toString now ++ "_validation.json")
        ("validation_result " ++ bioguide_id ++ " " ++ fmtOpt url)
        (some "application/json") now with
    | .ok (db3, _) => createValidatedOffices bioguide_id now db3 offices
    | .error _ => (db2, false)
  | none => createValidatedOffices bioguide_id now db offices

/-- `validation/interface.py:ValidationInterface._save_rejected_data`
(lines 536-575): when an extraction id is supplied, mark the extraction
`rejected` and store a `rejection_result` artifact (again outside the
CHECK constraint, so it raises); no office rows are written either
way. -/
def saveRejectedData (db : Db) (bioguide_id : String)
    (offices : List OfficeDict) (url : Option String)
    (extraction_id : Option Nat) (now : Nat) : Db × Bool :=
  match extraction_id with
  | some eid =>
    let db2 := (db.update_extraction_status eid .rejected none now).1
    match db2.store_artifact eid "rejection_result"
        (bioguide_id ++ "_" ++ toString now ++ "_rejection.json")
        ("rejection_result " ++ bioguide_id ++ " " ++ fmtOpt url)
        (some "application/json") now with
    | .ok (db3, _) => (db3, true)
    | .error _ => (db2, false)
  | none => (db, true)

/-- `sqlite_db.py` / `__init__.py:StagingManager.get_extraction_data`:
the most recent extraction for a bioguide id (`ORDER BY created_at
DESC ... first()`); ties on `created_at` resolve to the most recently
inserted row, matching the engine scan order. -/
def latestExtraction (db : Db) (bioguide_id : String) : Option Extraction :=
  db.extractions.foldl (fun best e =>
    if e.bioguide_id == bioguide_id then
      match best with
      | none => some e
      | some x => if x.created_at ≤ e.created_at then some e else some x
    else best) none

/-- The payload assembled by
`validation/server.py:ValidationServer._get_data_for_validation`. -/
structure ValidationData where
  bioguide_id : String
  extracted_offices : List OfficeDict
  source_url : Option String
  extraction_id : Nat
deriving DecidableEq, Repr

/-- `validation/server.py:ValidationServer._get_data_for_validation`
(lines 65-140): `none` when the bioguide id has no extraction; otherwise
the latest extraction's id, its office dicts (projected by the staging
layer) and its source url.  The artifact blobs it also loads feed only
the rendered review page, which is external to this model. -/
def getDataForValidation (db : Db) (bioguide_id : String) :
    Option ValidationData :=
  match latestExtraction db bioguide_id with
  | none => none
  | some e =>
    some { bioguide_id := bioguide_id
           extracted_offices :=
             (db.extracted_offices.filter (fun o => o.extraction_id == e.id)).map
               (fun o => o.fields)
           source_url := e.source_url
           extraction_id := e.id }

/-- `validation/server.py:ValidationServer` state: the queue built once
from the pending extractions, the cursor, the shared SQLite store, the
optional upstream uri, plus the log of emitted queue-mismatch warnings
(observable side channel of `log.warning`). -/
structure ValidationServer where
  pending_bioguides : List String
  current_item_index : Nat
  db : Db
  database_uri : Option String
  warnings : List String
deriving DecidableEq, Repr

/-- The warning text of `validation/server.py` line 198. -/
def mismatchWarning (received expected : String) : String :=
  "Received validation for " ++ received ++ ", but current server item is " ++
    expected ++ ". Processing " ++ received ++ "."

/-- Fuel-driven worker for `processNextItem`; fuel
`len(queue) - cursor` covers every recursive skip. -/
def processNextItemGo : Nat → ValidationServer → ValidationServer
  | 0, s => s
  | fuel + 1, s =>
    if h : s.current_item_index < s.pending_bioguides.length then
      match getDataForValidation s.db
          (s.pending_bioguides.get ⟨s.current_item_index, h⟩) with
      | some _ => s
      | none =>
        processNextItemGo fuel
          { s with current_item_index := s.current_item_index + 1 }
    else s

/-- `validation/server.py:ValidationServer._process_next_item` (lines
142-168): when the cursor is in range, load the current item's data and
hand it to the reviewer (external rendering, no store effect); when the
data cannot be loaded, skip the item (`current_item_index += 1`) and
recurse; when the queue is exhausted, stay idle. -/
def processNextItem (s : ValidationServer) : ValidationServer :=
  processNextItemGo (s.pending_bioguides.length - s.current_item_index) s

/-- How one `/validate` request terminated: a 200 acknowledgement page,
or an uncaught Python exception inside `do_GET` (IndexError on the queue
probe, or an IntegrityError from the office inserts), which aborts the
handler before the cursor advance. -/
inductive DoGetOutcome where
  | responded
  | crashed
deriving DecidableEq, Repr

/-- The decision-processing part of
`validation/server.py:ValidationHandler.do_GET` (lines 180-257),
run after the queue-mismatch probe: fetch the data for the supplied
bioguide id, persist the decision (`_save_validated_data` /
`_save_rejected_data`), mark the extraction in the staging manager,
best-effort upsert the accepted offices when an upstream uri is
configured, answer 200 and advance the cursor; a raise from the office
inserts aborts before anything later runs. -/
def processDecision (s : ValidationServer) (bioguide_id : String)
    (accepted : Bool) (now : Nat) : ValidationServer × DoGetOutcome :=
  match getDataForValidation s.db bioguide_id with
  | none =>
    -- "Could not retrieve data ... to save validation status.": only an
    -- error log; the 200 response and the cursor advance still happen.
    let s2 := { s with current_item_index := s.current_item_index + 1 }
    (processNextItem s2, .responded)
  | some d =>
    -- server.py:209-215 passes FOUR positional arguments to the
    -- five-parameter `_save_validated_data(bioguide_id, offices,
    -- html_content, url, extraction_id=None)`: the source url lands in
    -- `html_content`, the extraction id lands in `url` (both read only
    -- on the artifact path that is not taken), and `extraction_id`
    -- keeps its default None — so the interface-side status update and
    -- artifact store never run on the orchestrator path.
    let saved :=
      if accepted then
        saveValidatedData s.db bioguide_id d.extracted_offices none none now
      else
        saveRejectedData s.db bioguide_id d.extracted_offices none none now
    if saved.2 then
      -- staging_manager.mark_validated(extraction_id, is_valid)
      let db3 := (saved.1.update_extraction_status d.extraction_id
        (if accepted then .validated else .rejected) none now).1
      -- auto-store to the validated-office table when configured
      let db4 :=
        if accepted && !d.extracted_offices.isEmpty && s.database_uri.isSome then
          d.extracted_offices.foldl (fun acc office =>
            (store_district_office acc
              { office_id := none, bioguide_id := bioguide_id, fields := office }
              now).1) db3
        else db3
      let s2 := { s with
        db := db4
        current_item_index := s.current_item_index + 1 }
      (processNextItem s2, .responded)
    else
      ({ s with db := saved.1 }, .crashed)

/-- The queue-mismatch probe at `validation/server.py` lines 197-198:
compare the supplied id with the current queue item and log a warning on
mismatch. -/
def warnIfMismatch (s : ValidationServer) (bioguide_id : String)
    (h : s.current_item_index < s.pending_bioguides.length) :
    ValidationServer :=
  if bioguide_id = s.pending_bioguides.get ⟨s.current_item_index, h⟩ then s
  else { s with warnings := s.warnings ++
    [mismatchWarning bioguide_id
      (s.pending_bioguides.get ⟨s.current_item_index, h⟩)] }

/-- `validation/server.py:ValidationHandler.do_GET` on `/validate` with a
well-formed decision: probe the current queue item (an exhausted queue
makes `pending_bioguides[current_item_index]` raise IndexError before
anything is logged or written), log a warning when the supplied id does
not match, then process the decision keyed by the supplied id. -/
def handleValidate (s : ValidationServer) (bioguide_id : String)
    (accepted : Bool) (now : Nat) : ValidationServer × DoGetOutcome :=
  if h : s.current_item_index < s.pending_bioguides.length then
    processDecision (warnIfMismatch s bioguide_id h) bioguide_id accepted now
  else
    (s, .crashed)

/-- One inbound `SubmitDecision` call. -/
structure Decision where
  bioguide_id : String
  accepted : Bool
  now : Nat
deriving DecidableEq, Repr

/-- A sequence of `/validate` requests, processed serially (the HTTP
server runs one handler at a time). -/
def submitDecisions (s : ValidationServer) (ds : List Decision) :
    ValidationServer :=
  ds.foldl (fun acc d => (handleValidate acc d.bioguide_id d.accepted d.now).1) s

/-- Number of queue items currently handed to the reviewer and awaiting
a decision: the single current item when the cursor is in range. -/
def itemsAwaitingDecision (s : ValidationServer) : Nat :=
  if s.current_item_index < s.pending_bioguides.length then 1 else 0

/-! ## Well-formedness predicates and observation helpers -/

/-- The `validated_offices` primary key: office ids are pairwise
distinct.  Every store reachable through the embedded operations has
this property; SQLite enforces it. -/
def OfficeIdsNodup (db : Db) : Prop :=
  (db.validated_offices.map (fun o => o.office_id)).Nodup

/-- The autoincrement discipline of the `extractions` table: every
existing id is below the next id to be handed out. -/
def ExtractionIdsFresh (db : Db) : Prop :=
  ∀ e ∈ db.extractions, e.id < db.next_extraction_id

/-- Number of `validated_offices` rows carrying a given office key. -/
def countOfficeKey (db : Db) (k : String) : Nat :=
  (db.validated_offices.filter (fun o => o.office_id == k)).length

/-- Number of `validated_offices` rows for one unit and city. -/
def countUnitCity (db : Db) (bioguide_id : String) (city : Option String) :
    Nat :=
  (db.validated_offices.filter
    (fun o => o.bioguide_id == bioguide_id && o.city == city)).length

/-- N validation/acceptance cycles through
`__init__.py:store_district_office` for the same office dict, at the
given sequence of wall-clock instants. -/
def storeCycles (db : Db) (d : OfficeData) (times : List Nat) : Db :=
  times.foldl (fun acc t => (store_district_office acc d t).1) db

/-- The `started` sync-log row written at the top of an export run. -/
def exportStartedRow (now : Nat) : SyncLog :=
  { sync_type := "offices_export"
    sync_direction := "to_upstream"
    records_processed := 0
    status := .started
    error_message := none
    started_at := now
    completed_at := none }

/-- The `completed` sync-log row written at the end of an export run. -/
def exportCompletedRow (records now : Nat) : SyncLog :=
  { sync_type := "offices_export"
    sync_direction := "to_upstream"
    records_processed := records
    status := .completed
    error_message := none
    started_at := now
    completed_at := some now }

/-! ## Concrete stores used as witnesses and counterexamples -/

/-- An office dict with every field absent. -/
def emptyDict : OfficeDict :=
  { address := none, suite := none, building := none, city := none
    st := none, zip := none, phone := none, fax := none, hours := none }

/-- An office dict for the city Springfield. -/
def springfieldDict : OfficeDict := { emptyDict with city := some "Springfield" }

/-- An office dict for the city Chicago. -/
def chicagoDict : OfficeDict := { emptyDict with city := some "Chicago" }

/-- One current member row. -/
def exMember : Member :=
  { bioguideid := "U1", currentmember := true, officialwebsiteurl := none
    name := none, st := none }

/-- A store with every table empty. -/
def emptyDb : Db :=
  { members := [], extractions := [], extracted_offices := []
    validated_offices := [], artifacts := [], sync_logs := []
    next_extraction_id := 1, next_artifact_id := 1 }

/-- A pending extraction for member U1. -/
def pendingExtraction1 : Extraction :=
  { id := 1, bioguide_id := "U1", status := .pending
    extraction_timestamp := 10, validation_timestamp := none
    source_url := some "https://x.example/contact", priority := 0
    error_message := none, retry_count := 0, created_at := 10
    updated_at := 10 }

/-- A second, later pending extraction for member U1. -/
def pendingExtraction2 : Extraction :=
  { pendingExtraction1 with
    id := 2
    extraction_timestamp := 150
    created_at := 150
    updated_at := 150 }

/-- A store whose only extraction is already terminal (`validated`). -/
def dbTerminal : Db :=
  { emptyDb with
    members := [exMember]
    extractions := [{ pendingExtraction1 with
      status := .validated, validation_timestamp := some 50, updated_at := 50 }]
    next_extraction_id := 2 }

/-- A store with one member and one pending extraction. -/
def dbPending : Db :=
  { emptyDb with
    members := [exMember]
    extractions := [pendingExtraction1]
    next_extraction_id := 2 }

/-- A store with two pending extractions for U1 (two review cycles). -/
def dbTwoCycles : Db :=
  { emptyDb with
    members := [exMember]
    extractions := [pendingExtraction1, pendingExtraction2]
    next_extraction_id := 3 }

/-- Store after a first accept cycle for (U1, Springfield) at time 100
through the orchestrator path of the validation interface
(`_save_validated_data` is reached with `extraction_id=None` because
server.py:209-211 passes four positional arguments). -/
def dbCycleA : Db :=
  (saveValidatedData dbTwoCycles "U1" [springfieldDict] none none 100).1

/-- Store after a second accept cycle for the same (U1, Springfield) at
time 200, again on the orchestrator path. -/
def dbCycleB : Db :=
  (saveValidatedData dbCycleA "U1" [springfieldDict] none none 200).1

/-- A pending extraction whose candidate set holds two offices with the
same city, so that the timestamped office keys of one accept collide. -/
def dbTwoSameCity : Db :=
  { emptyDb with
    members := [exMember]
    extractions := [pendingExtraction1]
    extracted_offices :=
      [ { id := 1, extraction_id := 1, office_type := none, fields := springfieldDict }
      , { id := 2, extraction_id := 1, office_type := none, fields := springfieldDict } ]
    next_extraction_id := 2 }

/-- Validation server sitting on `dbTwoSameCity` with U1 as the current
queue item. -/
def serverTwoSameCity : ValidationServer :=
  { pending_bioguides := ["U1"], current_item_index := 0
    db := dbTwoSameCity, database_uri := none, warnings := [] }

/-- A store with extractions for two units, used for the queue-mismatch
scenario. -/
def dbTwoUnits : Db :=
  { emptyDb with
    members := [exMember, { exMember with bioguideid := "U2" }]
    extractions :=
      [ pendingExtraction1
      , { pendingExtraction1 with id := 2, bioguide_id := "U2" } ]
    extracted_offices :=
      [ { id := 1, extraction_id := 1, office_type := none, fields := springfieldDict }
      , { id := 2, extraction_id := 2, office_type := none, fields := chicagoDict } ]
    next_extraction_id := 3 }

/-- Validation server whose current item is U1 while a decision for U2
arrives. -/
def serverTwoUnits : ValidationServer :=
  { pending_bioguides := ["U1", "U2"], current_item_index := 0
    db := dbTwoUnits, database_uri := none, warnings := [] }

/-- Two unsynced validated offices with distinct keys and ordered
`validated_at`, for the export batching witness. -/
def dbTwoUnsynced : Db :=
  { emptyDb with
    members := [exMember]
    validated_offices :=
      [ officeFromData "U1-Springfield"
          { office_id := some "U1-Springfield", bioguide_id := "U1"
            fields := springfieldDict } 100
      , officeFromData "U1-Chicago"
          { office_id := some "U1-Chicago", bioguide_id := "U1"
            fields := chicagoDict } 200 ] }

/-- A previously synced office row for the re-validation witness. -/
def dbOneSynced : Db :=
  { emptyDb with
    members := [exMember]
    validated_offices :=
      [ { officeFromData "U1-Springfield"
            { office_id := some "U1-Springfield", bioguide_id := "U1"
              fields := springfieldDict } 100 with
          synced_to_upstream := true, synced_at := some 150 } ] }

/-! ## Generic list lemmas -/

/-- `find?` commutes with a map that does not disturb the predicate. -/
theorem find?_map_pres {α : Type} (f : α → α) (p : α → Bool)
    (hf : ∀ a, p (f a) = p a) :
    ∀ l : List α, (l.map f).find? p = (l.find? p).map f := by
  intro l
  induction l with
  | nil => rfl
  | cons a t ih =>
    by_cases hp : p a = true
    · rw [List.map_cons, List.find?_cons_of_pos _ (by rw [hf]; exact hp),
        List.find?_cons_of_pos _ hp]
      rfl
    · rw [List.map_cons,
        List.find?_cons_of_neg _ (by rw [hf]; exact Bool.not_eq_true _ ▸ hp),
        List.find?_cons_of_neg _ hp, ih]

/-- `filter` commutes with a map that does not disturb the predicate. -/
theorem filter_map_pres {α : Type} (f : α → α) (p : α → Bool)
    (hf : ∀ a, p (f a) = p a) :
    ∀ l : List α, (l.map f).filter p = (l.filter p).map f := by
  intro l
  induction l with
  | nil => rfl
  | cons a t ih =>
    by_cases hp : p a = true
    · simp only [List.map_cons, List.filter_cons, hf a, hp, if_true, ih]
    · simp only [List.map_cons, List.filter_cons, hf a,
        Bool.not_eq_true _ ▸ hp, if_false, ih]
      simp

/-- In a list whose images under `key` are pairwise distinct, the rows
matching one key number at most one. -/
theorem length_filter_key_le_one {α : Type} (key : α → String) :
    ∀ l : List α, (l.map key).Nodup → ∀ k,
      (l.filter (fun a => key a == k)).length ≤ 1 := by
  intro l
  induction l with
  | nil => intro _ k; simp
  | cons a t ih =>
    intro hn k
    rw [List.map_cons, List.nodup_cons] at hn
    by_cases hp : (key a == k) = true
    · have ht : t.filter (fun x => key x == k) = [] := by
        apply List.filter_eq_nil_iff.mpr
        intro b hb hbk
        exact hn.1 (by
          have hbkk : key b = k := by simpa using hbk
          have hak : key a = k := by simpa using hp
          rw [hak, ← hbkk]
          exact List.mem_map_of_mem key hb)
      simp only [List.filter_cons, hp, if_true, ht, List.length_singleton,
        le_refl]
    · simp only [List.filter_cons, hp, if_false]
      exact ih hn.2 k

/-- A row found by key is the only row with that key once the key column
is duplicate-free: `find?` by the key of a member returns that member. -/
theorem find?_key_of_mem {α : Type} [DecidableEq α] (key : α → String) :
    ∀ l : List α, (l.map key).Nodup → ∀ a ∈ l,
      l.find? (fun x => key x == key a) = some a := by
  intro l
  induction l with
  | nil => intro _ a ha; cases ha
  | cons b t ih =>
    intro hn a ha
    rw [List.map_cons, List.nodup_cons] at hn
    rcases List.mem_cons.mp ha with hab | hat
    · subst hab
      exact List.find?_cons_of_pos _ (by simp)
    · have hbk : (key b == key a) = false := by
        apply beq_eq_false_iff_ne.mpr
        intro hk
        exact hn.1 (hk ▸ List.mem_map_of_mem key hat)
      rw [List.find?_cons_of_neg _ (by simp [hbk]), ih hn.2 a hat]

/-! ## Store-operation lemmas -/

/-- The row update applied by `update_extraction_status`. -/
def statusUpdateFn (extraction_id : Nat) (status : ExtractionStatus)
    (error_message : Option String) (now : Nat) : Extraction → Extraction :=
  fun e =>
    if e.id == extraction_id then
      { e with
        status := status
        updated_at := now
        error_message :=
          match error_message with
          | some m => if m = "" then e.error_message else some m
          | none => e.error_message
        validation_timestamp :=
          if status = .validated then some now else e.validation_timestamp }
    else e

theorem update_extraction_status_found (db : Db) (eid : Nat)
    (st : ExtractionStatus) (err : Option String) (now : Nat) (e : Extraction)
    (h : findExtraction db eid = some e) :
    db.update_extraction_status eid st err now =
      ({ db with
          extractions := db.extractions.map (statusUpdateFn eid st err now) },
       true) := by
  unfold Db.update_extraction_status
  rw [h]
  rfl

theorem statusUpdateFn_keeps_id (eid : Nat) (st : ExtractionStatus)
    (err : Option String) (now : Nat) (e : Extraction) :
    (statusUpdateFn eid st err now e).id = e.id := by
  unfold statusUpdateFn
  by_cases h : (e.id == eid) = true <;> simp [h]

theorem findExtraction_update (db : Db) (eid : Nat) (st : ExtractionStatus)
    (err : Option String) (now : Nat) (eid2 : Nat) :
    findExtraction (db.update_extraction_status eid st err now).1 eid2 =
      (findExtraction db eid2).map
        (fun e =>
          if (findExtraction db eid).isSome then statusUpdateFn eid st err now e
          else e) := by
  unfold Db.update_extraction_status
  cases h : findExtraction db eid with
  | none => simp [h]
  | some e =>
    simp only [h, Option.isSome_some, if_true]
    show findExtraction
      { db with extractions := db.extractions.map (statusUpdateFn eid st err now) }
      eid2 = _
    unfold findExtraction
    show (db.extractions.map (statusUpdateFn eid st err now)).find?
        (fun x => x.id == eid2) = _
    rw [find?_map_pres (statusUpdateFn eid st err now) (fun x => x.id == eid2)
      (fun a => by
        show ((statusUpdateFn eid st err now a).id == eid2) = (a.id == eid2)
        rw [statusUpdateFn_keeps_id])]

/-- Core content of the amended transition claim: when the row exists,
`update_extraction_status` succeeds and overwrites the status,
regardless of the current (possibly terminal) status. -/
theorem update_sets_aux (db : Db) (eid : Nat) (st : ExtractionStatus)
    (err : Option String) (now : Nat)
    (h : (findExtraction db eid).isSome = true) :
    (db.update_extraction_status eid st err now).2 = true ∧
      (findExtraction (db.update_extraction_status eid st err now).1 eid).map
        (fun e => e.status) = some st ∧
      (findExtraction (db.update_extraction_status eid st err now).1 eid).map
        (fun e => e.updated_at) = some now := by
  rcases Option.isSome_iff_exists.mp h with ⟨e, he⟩
  have he2 : db.extractions.find? (fun x => x.id == eid) = some e := he
  have hid0 := List.find?_some he2
  have hid : (e.id == eid) = true := hid0
  have hideq : e.id = eid := by simpa using hid
  refine ⟨?_, ?_, ?_⟩
  · rw [update_extraction_status_found db eid st err now e he]
  · rw [findExtraction_update, he]
    simp [statusUpdateFn, hideq]
  · rw [findExtraction_update, he]
    simp [statusUpdateFn, hideq]

theorem update_extraction_status_validated_offices (db : Db) (eid : Nat)
    (st : ExtractionStatus) (err : Option String) (now : Nat) :
    (db.update_extraction_status eid st err now).1.validated_offices =
      db.validated_offices := by
  unfold Db.update_extraction_status
  cases findExtraction db eid <;> rfl

theorem create_validated_office_extractions (db : Db) (o : ValidatedOffice)
    (db2 : Db) (h : db.create_validated_office o = .ok db2) :
    db2.extractions = db.extractions := by
  unfold Db.create_validated_office at h
  by_cases hc : db.validated_offices.any
      (fun x => x.office_id == o.office_id) = true
  · rw [if_pos hc] at h; cases h
  · rw [if_neg hc] at h
    cases h
    rfl

theorem createValidatedOffices_extractions (b : String) (now : Nat) :
    ∀ (offs : List OfficeDict) (db : Db),
      (createValidatedOffices b now db offs).1.extractions = db.extractions := by
  intro offs
  induction offs with
  | nil => intro db; rfl
  | cons o rest ih =>
    intro db
    unfold createValidatedOffices
    cases h : db.create_validated_office
        { office_id := saveValidatedOfficeId b o.city now
          bioguide_id := b
          address := o.address, suite := o.suite, building := o.building
          city := o.city, st := o.st, zip := o.zip, phone := o.phone
          fax := o.fax, hours := o.hours
          validated_at := now, synced_to_upstream := false
          synced_at := none } with
    | ok db2 =>
      simp only [h]
      rw [ih db2, create_validated_office_extractions db _ db2 h]
    | error e => simp [h]

/-- On the orchestrator path (`extraction_id=None`), `_save_validated_data`
touches only the `validated_offices` table. -/
theorem saveValidatedData_none_extractions (db : Db) (b : String)
    (offs : List OfficeDict) (url : Option String) (now : Nat) :
    (saveValidatedData db b offs url none now).1.extractions =
      db.extractions := by
  show (createValidatedOffices b now db offs).1.extractions = db.extractions
  rw [createValidatedOffices_extractions]

/-- On the orchestrator path, `_save_rejected_data` is a no-op success. -/
theorem saveRejectedData_none (db : Db) (b : String)
    (offs : List OfficeDict) (url : Option String) (now : Nat) :
    saveRejectedData db b offs url none now = (db, true) := rfl

theorem store_district_office_extractions (db : Db) (d : OfficeData)
    (now : Nat) :
    (store_district_office db d now).1.extractions = db.extractions := by
  cases h : findOffice db (storeOfficeId d) <;> simp [store_district_office, h]

/-! ## Claim C10 -/

/-- Claim C10: calling `update_extraction_status` with an extraction id
that matches no row returns `False` without raising and leaves the store
completely unchanged. -/
theorem update_extraction_status_missing (db : Db) (eid : Nat)
    (st : ExtractionStatus) (err : Option String) (now : Nat)
    (h : findExtraction db eid = none) :
    db.update_extraction_status eid st err now = (db, false) := by
  unfold Db.update_extraction_status
  rw [h]

/-- Witness for C10 at a concrete store: the empty store has no
extraction 7, and the call returns it untouched with `false`. -/
theorem update_extraction_status_missing_witness :
    findExtraction emptyDb 7 = none ∧
      emptyDb.update_extraction_status 7 .validated none 100 =
        (emptyDb, false) :=
  ⟨by decide, update_extraction_status_missing emptyDb 7 .validated none 100
    (by decide)⟩

/-! ## Claim C1 -/

/-- Claim C1, counterexample: `dbTerminal` holds extraction 1 in the
terminal state `validated`, yet `update_extraction_status` to
`processing` returns `True` (accepted, no `InvalidTransition` signal)
and overwrites the status.  The claimed behavior — the call is refused
and the row left unchanged — does not hold. -/
theorem terminal_transition_cx :
    (dbTerminal.update_extraction_status 1 .processing none 100).2 = true ∧
      (findExtraction
          (dbTerminal.update_extraction_status 1 .processing none 100).1 1).map
        (fun e => e.status) = some .processing := by
  constructor
  · rfl
  · rfl

/-- Claim C1, amended: `update_extraction_status` performs no
terminal-state check.  Whenever the extraction row exists — whatever its
current status, including the terminal validated/rejected/failed — the
call silently succeeds (returns `True`), overwrites `status` and
refreshes `updated_at`; `False` is returned only for a missing id, and
no `InvalidTransition` signal exists. -/
theorem update_extraction_status_unchecked (db : Db) (eid : Nat)
    (st : ExtractionStatus) (err : Option String) (now : Nat)
    (h : (findExtraction db eid).isSome = true) :
    (db.update_extraction_status eid st err now).2 = true ∧
      (findExtraction (db.update_extraction_status eid st err now).1 eid).map
        (fun e => e.status) = some st ∧
      (findExtraction (db.update_extraction_status eid st err now).1 eid).map
        (fun e => e.updated_at) = some now :=
  update_sets_aux db eid st err now h

/-- Witness for the amended C1 on the terminal store: the validated
extraction is silently moved to `rejected`. -/
theorem update_extraction_status_unchecked_witness :
    (findExtraction dbTerminal 1).isSome = true ∧
      (dbTerminal.update_extraction_status 1 .rejected none 200).2 = true ∧
      (findExtraction
          (dbTerminal.update_extraction_status 1 .rejected none 200).1 1).map
        (fun e => e.status) = some .rejected ∧
      (findExtraction
          (dbTerminal.update_extraction_status 1 .rejected none 200).1 1).map
        (fun e => e.updated_at) = some 200 := by
  have h := update_extraction_status_unchecked dbTerminal 1 .rejected none 200
    (by decide)
  exact ⟨by decide, h.1, h.2.1, h.2.2⟩

/-! ## Claim C6 -/

/-- Claim C6: `create_extraction` fails (raises the unknown-bioguide
error) exactly when the bioguide id has no member row — the referential
check runs explicitly before the insert — and otherwise returns a new
extraction whose status is `pending`. -/
theorem create_extraction_spec (db : Db) (b url : String) (p : Int)
    (now : Nat) (hfresh : ExtractionIdsFresh db) :
    match db.create_extraction b url p now with
    | .error _ => db.members.find? (fun m => m.bioguideid == b) = none
    | .ok (db2, eid) =>
      (db.members.find? (fun m => m.bioguideid == b)).isSome = true ∧
        (findExtraction db2 eid).map (fun e => e.status) = some .pending := by
  cases hm : db.members.find? (fun m => m.bioguideid == b) with
  | none =>
    simp only [Db.create_extraction, hm]
  | some m =>
    simp only [Db.create_extraction, hm, findExtraction, Option.isSome_some,
      true_and]
    have hnone : db.extractions.find?
        (fun e => e.id == db.next_extraction_id) = none := by
      apply List.find?_eq_none.mpr
      intro e he
      have hlt := hfresh e he
      simp only [beq_iff_eq]
      omega
    rw [List.find?_append, hnone]
    simp

/-- Witness for C6: on `dbPending`, creating an extraction for the
known member U1 yields a pending row. -/
theorem create_extraction_spec_witness :
    ExtractionIdsFresh dbPending ∧
      (match dbPending.create_extraction "U1" "https://x.example" 0 20 with
       | .error _ =>
         dbPending.members.find? (fun m => m.bioguideid == "U1") = none
       | .ok (db2, eid) =>
         (dbPending.members.find?
             (fun m => m.bioguideid == "U1")).isSome = true ∧
           (findExtraction db2 eid).map (fun e => e.status) =
             some .pending) := by
  have hfresh : ExtractionIdsFresh dbPending := by
    intro e he
    have h1 : e = pendingExtraction1 := by simpa [dbPending, emptyDb] using he
    subst h1
    decide
  exact ⟨hfresh,
    create_extraction_spec dbPending "U1" "https://x.example" 0 20 hfresh⟩

/-! ## Claim C9 -/

/-- `find?` by key over a map replacing the matching rows by one fixed
row carrying that key. -/
theorem find?_map_replace (k : String) (v : ValidatedOffice)
    (hv : v.office_id = k) :
    ∀ l : List ValidatedOffice,
      (l.find? (fun o => o.office_id == k)).isSome = true →
      ((l.map (fun o => if o.office_id == k then v else o)).find?
        (fun o => o.office_id == k)) = some v := by
  intro l
  induction l with
  | nil => intro h; cases h
  | cons a t ih =>
    intro h
    by_cases ha : (a.office_id == k) = true
    · rw [List.map_cons, if_pos ha]
      exact List.find?_cons_of_pos _ (by simp [hv])
    · rw [List.map_cons, if_neg ha,
        List.find?_cons_of_neg _ (by simpa using ha)]
      apply ih
      rw [List.find?_cons_of_neg _ (by simpa using ha)] at h
      exact h

/-- The row replacement applied by `store_district_office` on an
existing key. -/
def storeReplaceFn (k : String) (d : OfficeData) (now : Nat) :
    ValidatedOffice → ValidatedOffice :=
  fun o => if o.office_id == k then officeFromData k d now else o

/-- Reduction of `store_district_office` on an existing key. -/
theorem store_district_office_found (db : Db) (d : OfficeData) (now : Nat)
    (o : ValidatedOffice) (ho : findOffice db (storeOfficeId d) = some o) :
    store_district_office db d now =
      ({ db with validated_offices := List.map (storeReplaceFn (storeOfficeId d) d now) db.validated_offices }, true) := by
  simp only [store_district_office, ho]
  rfl

/-- Claim C9: upserting through `store_district_office` for an office
key that already exists overwrites the contact fields, refreshes
`validated_at`, resets `synced_to_upstream` to false and `synced_at` to
null, and the row shows up in `get_unsynced_offices`, so it is exported
again by the next Export run. -/
theorem store_district_office_resync (db : Db) (d : OfficeData) (now : Nat)
    (h : (findOffice db (storeOfficeId d)).isSome = true) :
    (store_district_office db d now).2 = true ∧
      findOffice (store_district_office db d now).1 (storeOfficeId d) =
        some (officeFromData (storeOfficeId d) d now) ∧
      officeFromData (storeOfficeId d) d now ∈
        (store_district_office db d now).1.get_unsynced_offices := by
  rcases Option.isSome_iff_exists.mp h with ⟨o, ho⟩
  rw [store_district_office_found db d now o ho]
  have hfind : findOffice
      ({ db with validated_offices := List.map (storeReplaceFn (storeOfficeId d) d now) db.validated_offices } : Db)
      (storeOfficeId d) =
      some (officeFromData (storeOfficeId d) d now) := by
    unfold findOffice storeReplaceFn
    exact find?_map_replace (storeOfficeId d)
      (officeFromData (storeOfficeId d) d now) rfl db.validated_offices h
  refine ⟨rfl, hfind, ?_⟩
  have hmem2 : officeFromData (storeOfficeId d) d now ∈
      ({ db with validated_offices := List.map (storeReplaceFn (storeOfficeId d) d now) db.validated_offices } : Db).validated_offices :=
    List.mem_of_find?_eq_some hfind
  unfold Db.get_unsynced_offices
  rw [(List.perm_insertionSort validatedAtLE _).mem_iff]
  apply List.mem_filter.mpr
  exact ⟨hmem2, by rfl⟩

/-- Witness for C9: the already-synced Springfield office is re-stored
at time 300 and becomes unsynced again. -/
theorem store_district_office_resync_witness :
    (findOffice dbOneSynced "U1-Springfield").isSome = true ∧
      officeFromData "U1-Springfield"
          { office_id := none, bioguide_id := "U1", fields := springfieldDict }
          300 ∈
        (store_district_office dbOneSynced
          { office_id := none, bioguide_id := "U1", fields := springfieldDict }
          300).1.get_unsynced_offices := by
  have h := store_district_office_resync dbOneSynced
    { office_id := none, bioguide_id := "U1", fields := springfieldDict } 300
    (by decide)
  exact ⟨by decide, h.2.2⟩

/-! ## Claim C5 -/

/-- Appending a sync-log row does not affect the unsynced-office query. -/
theorem get_unsynced_log (db : Db) (t dir : String) (r : Nat)
    (st : SyncStatus) (e : Option String) (now : Nat) :
    (db.log_sync_operation t dir r st e now).get_unsynced_offices =
      db.get_unsynced_offices := rfl

/-- Reduction of an export run that finds no unsynced offices. -/
theorem export_empty_aux (db : Db) (pg : List UpstreamOffice)
    (bs : Nat) (failK : Option Nat) (now : Nat)
    (h : db.get_unsynced_offices = []) :
    export_validated_offices db pg bs failK now =
      { db := (db.log_sync_operation "offices_export" "to_upstream" 0
            .started none now).log_sync_operation "offices_export"
            "to_upstream" 0 .completed none now
        pg := pg
        res := .ok 0 } := by
  unfold export_validated_offices
  simp only [get_unsynced_log, h, List.isEmpty_nil, if_true]

/-- Claim C5: calling Export when no `ValidatedOffice` row is unsynced
returns 0 records processed, writes the `started` and `completed`
sync-run rows, and leaves the office table (and the upstream store)
unchanged. -/
theorem export_no_unsynced (db : Db) (pg : List UpstreamOffice)
    (bs : Nat) (failK : Option Nat) (now : Nat)
    (h : db.get_unsynced_offices = []) :
    (export_validated_offices db pg bs failK now).res = .ok 0 ∧
      (export_validated_offices db pg bs failK now).db.validated_offices =
        db.validated_offices ∧
      (export_validated_offices db pg bs failK now).db.sync_logs =
        db.sync_logs ++ [exportStartedRow now, exportCompletedRow 0 now] ∧
      (export_validated_offices db pg bs failK now).pg = pg := by
  rw [export_empty_aux db pg bs failK now h]
  refine ⟨rfl, rfl, ?_, rfl⟩
  show (db.sync_logs ++ [exportStartedRow now]) ++ [exportCompletedRow 0 now]
    = db.sync_logs ++ [exportStartedRow now, exportCompletedRow 0 now]
  rw [List.append_assoc]
  rfl

/-- Witness for C5 on the empty store. -/
theorem export_no_unsynced_witness :
    emptyDb.get_unsynced_offices = [] ∧
      (export_validated_offices emptyDb [] 10 none 400).res = .ok 0 ∧
      (export_validated_offices emptyDb [] 10 none 400).db.sync_logs =
        emptyDb.sync_logs ++ [exportStartedRow 400, exportCompletedRow 0 400] := by
  have h := export_no_unsynced emptyDb [] 10 none 400 (by decide)
  exact ⟨by decide, h.1, h.2.2.1⟩

/-! ## Claim C2 -/

/-- Reduction of `store_district_office` on a fresh key. -/
theorem store_district_office_notfound (db : Db) (d : OfficeData) (now : Nat)
    (ho : findOffice db (storeOfficeId d) = none) :
    store_district_office db d now =
      ({ db with validated_offices := db.validated_offices ++ [officeFromData (storeOfficeId d) d now] }, true) := by
  simp only [store_district_office, ho]

/-- One `store_district_office` call leaves exactly one row under the
derived key and preserves the primary-key discipline. -/
theorem store_countKey (db : Db) (d : OfficeData) (now : Nat)
    (hwf : OfficeIdsNodup db) :
    countOfficeKey (store_district_office db d now).1 (storeOfficeId d) = 1 ∧
      OfficeIdsNodup (store_district_office db d now).1 := by
  cases ho : findOffice db (storeOfficeId d) with
  | none =>
    rw [store_district_office_notfound db d now ho]
    have hall : ∀ o ∈ db.validated_offices,
        ¬((fun o => o.office_id == storeOfficeId d) o = true) :=
      List.find?_eq_none.mp ho
    constructor
    · show ((db.validated_offices ++
        [officeFromData (storeOfficeId d) d now]).filter
          (fun o => o.office_id == storeOfficeId d)).length = 1
      rw [List.filter_append, List.filter_eq_nil_iff.mpr hall]
      simp [officeFromData]
    · show ((db.validated_offices ++
        [officeFromData (storeOfficeId d) d now]).map
          (fun o => o.office_id)).Nodup
      rw [List.map_append]
      apply (List.perm_append_comm.nodup_iff).mpr
      rw [List.map_singleton, List.singleton_append, List.nodup_cons]
      refine ⟨?_, hwf⟩
      intro hk
      rcases List.mem_map.mp hk with ⟨o, hol, hok⟩
      have hok2 : o.office_id = storeOfficeId d := hok
      exact hall o hol (by simp [hok2])
  | some o =>
    rw [store_district_office_found db d now o ho]
    have hf : ∀ x : ValidatedOffice,
        ((storeReplaceFn (storeOfficeId d) d now x).office_id ==
          storeOfficeId d) = (x.office_id == storeOfficeId d) := by
      intro x
      unfold storeReplaceFn
      by_cases hx : (x.office_id == storeOfficeId d) = true
      · rw [if_pos hx, hx]
        exact beq_self_eq_true _
      · rw [if_neg hx]
    have hids : ∀ x : ValidatedOffice,
        (storeReplaceFn (storeOfficeId d) d now x).office_id = x.office_id := by
      intro x
      unfold storeReplaceFn
      by_cases hx : (x.office_id == storeOfficeId d) = true
      · rw [if_pos hx]
        have hx2 : x.office_id = storeOfficeId d := by simpa using hx
        show storeOfficeId d = x.office_id
        exact hx2.symm
      · rw [if_neg hx]
    constructor
    · show ((List.map (storeReplaceFn (storeOfficeId d) d now)
        db.validated_offices).filter
          (fun o => o.office_id == storeOfficeId d)).length = 1
      rw [filter_map_pres _ _ hf, List.length_map]
      have hle := length_filter_key_le_one
        (fun o : ValidatedOffice => o.office_id)
        db.validated_offices hwf (storeOfficeId d)
      have ho2 : db.validated_offices.find?
          (fun x => x.office_id == storeOfficeId d) = some o := ho
      have hpo := List.find?_some ho2
      have hmem : o ∈ db.validated_offices.filter
          (fun x => x.office_id == storeOfficeId d) :=
        List.mem_filter.mpr ⟨List.mem_of_find?_eq_some ho2, hpo⟩
      have hpos := List.length_pos.mpr (List.ne_nil_of_mem hmem)
      omega
    · show ((List.map (storeReplaceFn (storeOfficeId d) d now)
        db.validated_offices).map (fun o => o.office_id)).Nodup
      rw [List.map_map]
      have : ((fun o : ValidatedOffice => o.office_id) ∘
          storeReplaceFn (storeOfficeId d) d now) =
          (fun o : ValidatedOffice => o.office_id) := by
        funext x
        exact hids x
      rw [this]
      exact hwf

/-- Iterating `store_district_office` keeps the single-row property. -/
theorem storeCycles_countKey (d : OfficeData) :
    ∀ (times : List Nat) (db : Db), OfficeIdsNodup db →
      countOfficeKey db (storeOfficeId d) = 1 →
      countOfficeKey (storeCycles db d times) (storeOfficeId d) = 1 ∧
        OfficeIdsNodup (storeCycles db d times) := by
  intro times
  induction times with
  | nil => intro db hwf hc; exact ⟨hc, hwf⟩
  | cons t ts ih =>
    intro db hwf hc
    have hstep := store_countKey db d t hwf
    exact ih (store_district_office db d t).1 hstep.2 hstep.1

/-- Claim C2, counterexample: the office key actually written by the
orchestrator's accept path (`_save_validated_data`, reached with
`extraction_id=None` via the positional-argument slip of
server.py:209-211, so the office loop runs with no prior status or
artifact write) embeds the validation timestamp, so two accept cycles
for the same (U1, Springfield) at times 100 and 200 produce different
office ids and two `ValidatedOffice` rows for that unit and city, not
one. -/
theorem office_key_timestamp_cx :
    countUnitCity dbCycleB "U1" (some "Springfield") = 2 ∧
      saveValidatedOfficeId "U1" (some "Springfield") 100 ≠
        saveValidatedOfficeId "U1" (some "Springfield") 200 := by
  constructor
  · rfl
  · decide

/-- Claim C2, amended: the office key of `store_district_office` (the
upsert path) is a pure function of (unit, city) when no explicit key is
supplied, and N accept cycles through it leave exactly one
`ValidatedOffice` row under that key; but the validation interface's
`_save_validated_data` appends the validation timestamp to its office
ids and inserts, so each accept cycle at a fresh timestamp adds one more
row (see the counterexample). -/
theorem store_office_key_idempotent (d dp : OfficeData) (db : Db)
    (times : List Nat) (hwf : OfficeIdsNodup db) (hne : times ≠ [])
    (hid : d.office_id = none) (hidp : dp.office_id = none)
    (hb : d.bioguide_id = dp.bioguide_id)
    (hc : d.fields.city = dp.fields.city) :
    storeOfficeId d = storeOfficeId dp ∧
      countOfficeKey (storeCycles db d times) (storeOfficeId d) = 1 := by
  constructor
  · unfold storeOfficeId
    rw [hid, hidp, hb, hc]
  · cases times with
    | nil => exact absurd rfl hne
    | cons t ts =>
      have hstep := store_countKey db d t hwf
      exact (storeCycles_countKey d ts (store_district_office db d t).1
        hstep.2 hstep.1).1

/-- Witness for the amended C2: two accept cycles through
`store_district_office` on the empty store leave one Springfield row. -/
theorem store_office_key_idempotent_witness :
    OfficeIdsNodup emptyDb ∧
      countOfficeKey
        (storeCycles emptyDb
          { office_id := none, bioguide_id := "U1", fields := springfieldDict }
          [100, 200])
        (storeOfficeId
          { office_id := none, bioguide_id := "U1", fields := springfieldDict })
        = 1 := by
  have h := store_office_key_idempotent
    { office_id := none, bioguide_id := "U1", fields := springfieldDict }
    { office_id := none, bioguide_id := "U1", fields := springfieldDict }
    emptyDb [100, 200] (by constructor) (by intro hx; cases hx) rfl rfl rfl rfl
  exact ⟨by constructor, h.2⟩

/-! ## Validation-orchestrator lemmas -/

/-- `processNextItemGo` never touches the queue, the store, the warnings
or the upstream uri; it only moves the cursor forward, and never past
the end of the queue. -/
theorem processNextItemGo_spec :
    ∀ (fuel : Nat) (s : ValidationServer),
      (processNextItemGo fuel s).pending_bioguides = s.pending_bioguides ∧
        (processNextItemGo fuel s).db = s.db ∧
        (processNextItemGo fuel s).warnings = s.warnings ∧
        (processNextItemGo fuel s).database_uri = s.database_uri ∧
        s.current_item_index ≤ (processNextItemGo fuel s).current_item_index ∧
        (s.current_item_index ≤ s.pending_bioguides.length →
          (processNextItemGo fuel s).current_item_index ≤
            s.pending_bioguides.length) := by
  intro fuel
  induction fuel with
  | zero =>
    intro s
    exact ⟨rfl, rfl, rfl, rfl, Nat.le_refl _, fun hb => hb⟩
  | succ f ih =>
    intro s
    unfold processNextItemGo
    by_cases h : s.current_item_index < s.pending_bioguides.length
    · rw [dif_pos h]
      cases hd : getDataForValidation s.db
          (s.pending_bioguides.get ⟨s.current_item_index, h⟩) with
      | some d =>
        exact ⟨rfl, rfl, rfl, rfl, Nat.le_refl _, fun hb => hb⟩
      | none =>
        have hstep := ih { s with current_item_index := s.current_item_index + 1 }
        refine ⟨hstep.1, hstep.2.1, hstep.2.2.1, hstep.2.2.2.1, ?_, ?_⟩
        · exact Nat.le_trans (Nat.le_succ _) hstep.2.2.2.2.1
        · intro _
          exact hstep.2.2.2.2.2 h
    · rw [dif_neg h]
      exact ⟨rfl, rfl, rfl, rfl, Nat.le_refl _, fun hb => hb⟩

/-- Same facts for `processNextItem`. -/
theorem processNextItem_spec (s : ValidationServer) :
    (processNextItem s).pending_bioguides = s.pending_bioguides ∧
      (processNextItem s).db = s.db ∧
      (processNextItem s).warnings = s.warnings ∧
      (processNextItem s).database_uri = s.database_uri ∧
      s.current_item_index ≤ (processNextItem s).current_item_index ∧
      (s.current_item_index ≤ s.pending_bioguides.length →
        (processNextItem s).current_item_index ≤
          s.pending_bioguides.length) :=
  processNextItemGo_spec _ s

/-- Advancing the cursor by one and skipping unloadable items stays
within the queue. -/
theorem advance_spec (s : ValidationServer) (db4 : Db) :
    (processNextItem
        { s with db := db4
                 current_item_index := s.current_item_index + 1 }).pending_bioguides
      = s.pending_bioguides ∧
      s.current_item_index ≤
        (processNextItem
          { s with db := db4
                   current_item_index := s.current_item_index + 1 }).current_item_index ∧
      (s.current_item_index < s.pending_bioguides.length →
        (processNextItem
          { s with db := db4
                   current_item_index := s.current_item_index + 1 }).current_item_index
          ≤ s.pending_bioguides.length) := by
  have hs := processNextItem_spec
    { s with db := db4, current_item_index := s.current_item_index + 1 }
  refine ⟨hs.1, ?_, ?_⟩
  · exact Nat.le_trans (Nat.le_succ _) hs.2.2.2.2.1
  · intro hb
    exact hs.2.2.2.2.2 hb

/-- The decision step keeps the queue fixed and moves the cursor
forward; when the cursor was in range it stays within the queue
length. -/
theorem processDecision_step (s : ValidationServer) (b : String) (a : Bool)
    (now : Nat) :
    (processDecision s b a now).1.pending_bioguides = s.pending_bioguides ∧
      s.current_item_index ≤
        (processDecision s b a now).1.current_item_index ∧
      (s.current_item_index < s.pending_bioguides.length →
        (processDecision s b a now).1.current_item_index ≤
          s.pending_bioguides.length) := by
  cases hd : getDataForValidation s.db b with
  | none =>
    simp only [processDecision, hd]
    exact advance_spec s s.db
  | some d =>
    simp only [processDecision, hd]
    by_cases hsv :
        (if a then
          saveValidatedData s.db b d.extracted_offices none none now
        else
          saveRejectedData s.db b d.extracted_offices none none now).2 = true
    · rw [if_pos hsv]
      exact advance_spec s _
    · rw [if_neg hsv]
      exact ⟨rfl, Nat.le_refl _, fun hb => Nat.le_of_lt hb⟩

/-- The mismatch probe changes only the warning log. -/
theorem warnIfMismatch_fields (s : ValidationServer) (b : String)
    (h : s.current_item_index < s.pending_bioguides.length) :
    (warnIfMismatch s b h).pending_bioguides = s.pending_bioguides ∧
      (warnIfMismatch s b h).current_item_index = s.current_item_index ∧
      (warnIfMismatch s b h).db = s.db ∧
      (warnIfMismatch s b h).database_uri = s.database_uri := by
  unfold warnIfMismatch
  by_cases hb : b = s.pending_bioguides.get ⟨s.current_item_index, h⟩
  · rw [if_pos hb]
    exact ⟨rfl, rfl, rfl, rfl⟩
  · rw [if_neg hb]
    exact ⟨rfl, rfl, rfl, rfl⟩

/-- One `/validate` request keeps the queue fixed, never moves the
cursor backwards, and keeps it within the queue length. -/
theorem handleValidate_step (s : ValidationServer) (b : String) (a : Bool)
    (now : Nat) :
    (handleValidate s b a now).1.pending_bioguides = s.pending_bioguides ∧
      s.current_item_index ≤
        (handleValidate s b a now).1.current_item_index ∧
      (s.current_item_index ≤ s.pending_bioguides.length →
        (handleValidate s b a now).1.current_item_index ≤
          s.pending_bioguides.length) := by
  unfold handleValidate
  by_cases h : s.current_item_index < s.pending_bioguides.length
  · rw [dif_pos h]
    have hw := warnIfMismatch_fields s b h
    have hp := processDecision_step (warnIfMismatch s b h) b a now
    refine ⟨hp.1.trans hw.1, ?_, ?_⟩
    · calc s.current_item_index
          = (warnIfMismatch s b h).current_item_index := hw.2.1.symm
        _ ≤ _ := hp.2.1
    · intro _
      have hlt : (warnIfMismatch s b h).current_item_index <
          (warnIfMismatch s b h).pending_bioguides.length := by
        rw [hw.1, hw.2.1]
        exact h
      have := hp.2.2 hlt
      rw [hw.1] at this
      exact this
  · rw [dif_neg h]
    exact ⟨rfl, Nat.le_refl _, fun hb => hb⟩

/-! ## Claim C8 -/

/-- At most one review item is ever in flight. -/
theorem itemsAwaitingDecision_le_one (s : ValidationServer) :
    itemsAwaitingDecision s ≤ 1 := by
  unfold itemsAwaitingDecision
  by_cases h : s.current_item_index < s.pending_bioguides.length
  · rw [if_pos h]
  · rw [if_neg h]
    exact Nat.zero_le 1

/-- Claim C8: across any sequence of `SubmitDecision` calls the cursor
is non-decreasing and never exceeds the (fixed) queue length, and at
most one item is awaiting a decision at any time. -/
theorem cursor_monotone_bounded (s : ValidationServer) (ds : List Decision)
    (h : s.current_item_index ≤ s.pending_bioguides.length) :
    s.current_item_index ≤ (submitDecisions s ds).current_item_index ∧
      (submitDecisions s ds).current_item_index ≤
        (submitDecisions s ds).pending_bioguides.length ∧
      itemsAwaitingDecision (submitDecisions s ds) ≤ 1 := by
  induction ds generalizing s with
  | nil =>
    exact ⟨Nat.le_refl _, h, itemsAwaitingDecision_le_one s⟩
  | cons d rest ih =>
    have hstep := handleValidate_step s d.bioguide_id d.accepted d.now
    have hbound : (handleValidate s d.bioguide_id d.accepted d.now).1.current_item_index ≤
        (handleValidate s d.bioguide_id d.accepted d.now).1.pending_bioguides.length := by
      rw [hstep.1]
      exact hstep.2.2 h
    have htail := ih (handleValidate s d.bioguide_id d.accepted d.now).1 hbound
    refine ⟨?_, htail.2.1, htail.2.2⟩
    show s.current_item_index ≤
      (submitDecisions (handleValidate s d.bioguide_id d.accepted d.now).1
        rest).current_item_index
    exact Nat.le_trans hstep.2.1 htail.1

/-- Witness for C8: two decisions on the two-unit server. -/
theorem cursor_monotone_bounded_witness :
    serverTwoUnits.current_item_index ≤
        serverTwoUnits.pending_bioguides.length ∧
      serverTwoUnits.current_item_index ≤
        (submitDecisions serverTwoUnits
          [{ bioguide_id := "U1", accepted := false, now := 100 },
           { bioguide_id := "U2", accepted := false, now := 110 }]).current_item_index ∧
      (submitDecisions serverTwoUnits
          [{ bioguide_id := "U1", accepted := false, now := 100 },
           { bioguide_id := "U2", accepted := false, now := 110 }]).current_item_index ≤
        (submitDecisions serverTwoUnits
          [{ bioguide_id := "U1", accepted := false, now := 100 },
           { bioguide_id := "U2", accepted := false, now := 110 }]).pending_bioguides.length := by
  have h := cursor_monotone_bounded serverTwoUnits
    [{ bioguide_id := "U1", accepted := false, now := 100 },
     { bioguide_id := "U2", accepted := false, now := 110 }] (by decide)
  exact ⟨by decide, h.1, h.2.1⟩

/-! ## Claim C7 -/

theorem findExtraction_congr (db1 db2 : Db)
    (h : db1.extractions = db2.extractions) (eid : Nat) :
    findExtraction db1 eid = findExtraction db2 eid := by
  unfold findExtraction
  rw [h]

theorem findExtraction_update_isSome (db : Db) (eid : Nat)
    (st : ExtractionStatus) (err : Option String) (now : Nat) (eid2 : Nat) :
    (findExtraction (db.update_extraction_status eid st err now).1 eid2).isSome
      = (findExtraction db eid2).isSome := by
  rw [findExtraction_update]
  cases findExtraction db eid2 <;> rfl

/-- The best-effort upstream store loop touches only
`validated_offices`. -/
theorem storeFold_extractions (bguide : String) (now : Nat) :
    ∀ (offs : List OfficeDict) (db : Db),
      (offs.foldl (fun acc office =>
        (store_district_office acc
          { office_id := none, bioguide_id := bguide, fields := office }
          now).1) db).extractions = db.extractions := by
  intro offs
  induction offs with
  | nil => intro db; rfl
  | cons o rest ih =>
    intro db
    rw [List.foldl_cons, ih, store_district_office_extractions]

/-- After a successful save, the mark-validated step fixes the final
status of the supplied extraction, and neither the upstream store loop
nor the advance to the next item disturbs it. -/
theorem processDecision_status (s : ValidationServer) (b : String) (a : Bool)
    (now : Nat) (d : ValidationData)
    (hd : getDataForValidation s.db b = some d)
    (hex : (findExtraction s.db d.extraction_id).isSome = true)
    (hsave : a = true →
      (saveValidatedData s.db b d.extracted_offices none none now).2 = true) :
    (findExtraction (processDecision s b a now).1.db d.extraction_id).map
        (fun e => e.status) =
      some (if a then ExtractionStatus.validated else .rejected) ∧
      (processDecision s b a now).1.warnings = s.warnings ∧
      (processDecision s b a now).2 = .responded := by
  cases a with
  | false =>
    simp only [processDecision, hd, Bool.false_eq_true, if_false,
      Bool.false_and, saveRejectedData]
    rw [if_pos trivial]
    have hs := processNextItem_spec
      { s with
        db := (s.db.update_extraction_status
          d.extraction_id .rejected none now).1
        current_item_index := s.current_item_index + 1 }
    refine ⟨?_, ?_, rfl⟩
    · rw [hs.2.1]
      exact (update_sets_aux s.db d.extraction_id .rejected none now hex).2.1
    · rw [hs.2.2.1]
  | true =>
    have hsv := hsave rfl
    simp only [processDecision, hd, if_true, hsv, Bool.true_and]
    have hsome : (findExtraction
        (saveValidatedData s.db b d.extracted_offices none none now).1
        d.extraction_id).isSome = true := by
      rw [findExtraction_congr _ _
        (saveValidatedData_none_extractions s.db b d.extracted_offices
          none now) d.extraction_id]
      exact hex
    have hupd := (update_sets_aux
      (saveValidatedData s.db b d.extracted_offices none none now).1
      d.extraction_id .validated none now hsome).2.1
    by_cases hrest :
        (!(d.extracted_offices.isEmpty) && s.database_uri.isSome) = true
    · rw [if_pos hrest]
      have hs := processNextItem_spec
        { s with
          db := d.extracted_offices.foldl (fun acc office =>
            (store_district_office acc
              { office_id := none, bioguide_id := b, fields := office }
              now).1)
            (((saveValidatedData s.db b d.extracted_offices none none
              now).1).update_extraction_status
                d.extraction_id .validated none now).1
          current_item_index := s.current_item_index + 1 }
      refine ⟨?_, ?_, trivial⟩
      · rw [hs.2.1]
        rw [findExtraction_congr _ _ (storeFold_extractions b now
          d.extracted_offices _) d.extraction_id]
        exact hupd
      · rw [hs.2.2.1]
    · rw [if_neg hrest]
      have hs := processNextItem_spec
        { s with
          db := (((saveValidatedData s.db b d.extracted_offices none none
            now).1).update_extraction_status
              d.extraction_id .validated none now).1
          current_item_index := s.current_item_index + 1 }
      refine ⟨?_, ?_, trivial⟩
      · rw [hs.2.1]
        exact hupd
      · rw [hs.2.2.1]

/-- Claim C7: when a decision arrives for an id different from the
current queue item, the handler logs the queue-mismatch warning (never
silently) and then processes the decision keyed by the supplied id: the
supplied id's extraction is the one driven to validated/rejected. -/
theorem queue_mismatch_warned_processed (s : ValidationServer) (b : String)
    (a : Bool) (now : Nat) (d : ValidationData)
    (h : s.current_item_index < s.pending_bioguides.length)
    (hmis : b ≠ s.pending_bioguides.get ⟨s.current_item_index, h⟩)
    (hd : getDataForValidation s.db b = some d)
    (hex : (findExtraction s.db d.extraction_id).isSome = true)
    (hsave : a = true →
      (saveValidatedData s.db b d.extracted_offices none none now).2
        = true) :
    (handleValidate s b a now).1.warnings =
      s.warnings ++ [mismatchWarning b
        (s.pending_bioguides.get ⟨s.current_item_index, h⟩)] ∧
      (findExtraction (handleValidate s b a now).1.db d.extraction_id).map
        (fun e => e.status) =
        some (if a then ExtractionStatus.validated else .rejected) ∧
      (handleValidate s b a now).2 = .responded := by
  unfold handleValidate
  rw [dif_pos h]
  have hw : warnIfMismatch s b h =
      { s with warnings := s.warnings ++ [mismatchWarning b
        (s.pending_bioguides.get ⟨s.current_item_index, h⟩)] } := by
    unfold warnIfMismatch
    rw [if_neg hmis]
  rw [hw]
  have hp := processDecision_status
    { s with warnings := s.warnings ++ [mismatchWarning b
        (s.pending_bioguides.get ⟨s.current_item_index, h⟩)] }
    b a now d hd hex hsave
  exact ⟨hp.2.1, hp.1, hp.2.2⟩

/-- Witness for C7: a rejection for U2 arrives while U1 is current; the
warning is logged and extraction 2 (U2) is the one rejected. -/
theorem queue_mismatch_warned_processed_witness :
    serverTwoUnits.current_item_index <
        serverTwoUnits.pending_bioguides.length ∧
      (handleValidate serverTwoUnits "U2" false 100).1.warnings =
        [mismatchWarning "U2" "U1"] ∧
      (findExtraction (handleValidate serverTwoUnits "U2" false 100).1.db
          2).map (fun e => e.status) = some .rejected := by
  have hlt : serverTwoUnits.current_item_index <
      serverTwoUnits.pending_bioguides.length := by decide
  have hget : serverTwoUnits.pending_bioguides.get
      ⟨serverTwoUnits.current_item_index, hlt⟩ = "U1" := rfl
  have hd : getDataForValidation serverTwoUnits.db "U2" = some
      { bioguide_id := "U2"
        extracted_offices := [chicagoDict]
        source_url := some "https://x.example/contact"
        extraction_id := 2 } := by decide
  have h := queue_mismatch_warned_processed serverTwoUnits "U2" false 100
    { bioguide_id := "U2"
      extracted_offices := [chicagoDict]
      source_url := some "https://x.example/contact"
      extraction_id := 2 }
    hlt (by
      intro heq
      rw [hget] at heq
      exact absurd heq (by decide))
    hd (by decide) (fun hc => by cases hc)
  rw [hget] at h
  exact ⟨hlt, by simpa using h.1, h.2.1⟩

/-! ## Claim C3 -/

/-- Claim C3: when persisting the accepted decision's ValidatedOffice
rows fails (an office insert raises), the handler aborts before the
acknowledgement: the extraction table is untouched — in particular the
extraction is not marked validated, since on the orchestrator path
`_save_validated_data` is entered with `extraction_id=None` (the
positional-argument slip at server.py:209-211) and so performs no status
update at all, and `mark_validated` is only reached after all office
rows persist — the cursor does not advance, and the item remains the
current queue item for a retried decision. -/
theorem accept_persist_failure_state (s : ValidationServer) (b : String)
    (now : Nat) (d : ValidationData)
    (h : s.current_item_index < s.pending_bioguides.length)
    (hd : getDataForValidation s.db b = some d)
    (hfail : (saveValidatedData s.db b d.extracted_offices none none
      now).2 = false) :
    (handleValidate s b true now).2 = .crashed ∧
      (handleValidate s b true now).1.current_item_index =
        s.current_item_index ∧
      (handleValidate s b true now).1.pending_bioguides =
        s.pending_bioguides ∧
      (handleValidate s b true now).1.db.extractions = s.db.extractions ∧
      (findExtraction (handleValidate s b true now).1.db d.extraction_id).map
        (fun e => e.status) =
        (findExtraction s.db d.extraction_id).map (fun e => e.status) := by
  unfold handleValidate
  rw [dif_pos h]
  have hwf := warnIfMismatch_fields s b h
  have hdb : (warnIfMismatch s b h).db = s.db := hwf.2.2.1
  simp only [processDecision, hdb, hd, if_true, hfail, Bool.false_eq_true,
    if_false]
  have hext : (saveValidatedData s.db b d.extracted_offices none none
      now).1.extractions = s.db.extractions :=
    saveValidatedData_none_extractions s.db b d.extracted_offices none now
  refine ⟨trivial, hwf.2.1, hwf.1, hext, ?_⟩
  rw [findExtraction_congr _ _ hext d.extraction_id]

/-- Witness for C3 on the two-Springfield store: the second timestamped
office insert of the accept collides, the save fails, the handler
crashes, the cursor stays at 0 and extraction 1 is still pending. -/
theorem accept_persist_failure_state_witness :
    (saveValidatedData serverTwoSameCity.db "U1"
        [springfieldDict, springfieldDict] none none 100).2 = false ∧
      (handleValidate serverTwoSameCity "U1" true 100).2 = .crashed ∧
      (handleValidate serverTwoSameCity "U1" true 100).1.current_item_index
        = serverTwoSameCity.current_item_index ∧
      (findExtraction
          (handleValidate serverTwoSameCity "U1" true 100).1.db 1).map
        (fun e => e.status) = some .pending := by
  have hd : getDataForValidation serverTwoSameCity.db "U1" = some
      { bioguide_id := "U1"
        extracted_offices := [springfieldDict, springfieldDict]
        source_url := some "https://x.example/contact"
        extraction_id := 1 } := by decide
  have h := accept_persist_failure_state serverTwoSameCity "U1" 100
    { bioguide_id := "U1"
      extracted_offices := [springfieldDict, springfieldDict]
      source_url := some "https://x.example/contact"
      extraction_id := 1 }
    (by decide) hd (by decide)
  refine ⟨by decide, h.1, h.2.1, ?_⟩
  rw [h.2.2.2.2]
  decide

/-! ## Claim C4: batching lemmas -/

theorem chunksGo_flatten {α : Type} (bs : Nat) (hbs : 0 < bs) :
    ∀ (fuel : Nat) (l : List α), l.length ≤ fuel →
      (chunksGo bs fuel l).flatten = l := by
  intro fuel
  induction fuel with
  | zero =>
    intro l hl
    have : l = [] := List.eq_nil_of_length_eq_zero (Nat.le_zero.mp hl)
    subst this
    rfl
  | succ f ih =>
    intro l hl
    cases l with
    | nil => rfl
    | cons a t =>
      show (((a :: t).take bs :: chunksGo bs f ((a :: t).drop bs))).flatten
        = a :: t
      rw [List.flatten_cons, ih ((a :: t).drop bs) ?_, List.take_append_drop]
      rw [List.length_drop]
      have hlen : (a :: t).length ≤ f + 1 := hl
      have : 0 < (a :: t).length := by simp
      omega

theorem chunks_flatten {α : Type} (bs : Nat) (hbs : 0 < bs) (l : List α) :
    (chunks bs l).flatten = l :=
  chunksGo_flatten bs hbs l.length l (Nat.le_refl _)

theorem contains_of_mem (l : List String) (a : String) (h : a ∈ l) :
    l.contains a = true :=
  List.elem_iff.mpr h

theorem contains_of_not_mem (l : List String) (a : String) (h : a ∉ l) :
    l.contains a = false := by
  simpa using h

theorem findOffice_congr (db1 db2 : Db)
    (h : db1.validated_offices = db2.validated_offices) (oid : String) :
    findOffice db1 oid = findOffice db2 oid := by
  unfold findOffice
  rw [h]

/-- The row update applied by `mark_offices_synced`. -/
def markFn (ids : List String) (now : Nat) :
    ValidatedOffice → ValidatedOffice :=
  fun o => if ids.contains o.office_id then markedOffice o now else o

theorem markFn_office_id (ids : List String) (now : Nat)
    (o : ValidatedOffice) : (markFn ids now o).office_id = o.office_id := by
  unfold markFn
  by_cases h : ids.contains o.office_id = true
  · rw [if_pos h]
    rfl
  · rw [if_neg h]

theorem mark_offices_synced_validated (db : Db) (ids : List String)
    (now : Nat) :
    (db.mark_offices_synced ids now).validated_offices =
      db.validated_offices.map (markFn ids now) := rfl

theorem mark_offices_synced_nil (db : Db) (now : Nat) :
    (db.mark_offices_synced [] now).validated_offices =
      db.validated_offices := by
  rw [mark_offices_synced_validated]
  have : markFn [] now = fun o => o := by
    funext o
    unfold markFn
    rfl
  rw [this, List.map_id']

theorem markFn_append (a bl : List String) (now : Nat) :
    (markFn bl now) ∘ (markFn a now) = markFn (a ++ bl) now := by
  funext o
  show markFn bl now (markFn a now o) = markFn (a ++ bl) now o
  unfold markFn
  by_cases ha : a.contains o.office_id = true
  · rw [if_pos ha]
    have hab : (a ++ bl).contains o.office_id = true :=
      contains_of_mem _ _ (List.mem_append_left bl (by simpa using ha))
    rw [if_pos hab]
    show (if bl.contains o.office_id = true then
        markedOffice (markedOffice o now) now else markedOffice o now) =
      markedOffice o now
    by_cases hb : bl.contains o.office_id = true
    · rw [if_pos hb]
      rfl
    · rw [if_neg hb]
  · rw [if_neg ha]
    by_cases hb : bl.contains o.office_id = true
    · rw [if_pos hb, if_pos (contains_of_mem _ _
        (List.mem_append_right a (by simpa using hb)))]
    · rw [if_neg hb, if_neg ?_]
      intro hab
      rcases List.mem_append.mp (by simpa using hab) with hx | hx
      · exact ha (contains_of_mem _ _ hx)
      · exact hb (contains_of_mem _ _ hx)

theorem mark_mark (db : Db) (a bl : List String) (now : Nat) :
    ((db.mark_offices_synced a now).mark_offices_synced bl now).validated_offices
      = (db.mark_offices_synced (a ++ bl) now).validated_offices := by
  rw [mark_offices_synced_validated, mark_offices_synced_validated,
    mark_offices_synced_validated, List.map_map, markFn_append]

theorem findOffice_mark (db : Db) (ids : List String) (now : Nat)
    (oid : String) :
    findOffice (db.mark_offices_synced ids now) oid =
      (findOffice db oid).map (markFn ids now) := by
  unfold findOffice
  rw [mark_offices_synced_validated]
  exact find?_map_pres (markFn ids now) (fun o => o.office_id == oid)
    (fun o => by
      show ((markFn ids now o).office_id == oid) = (o.office_id == oid)
      rw [markFn_office_id])
    db.validated_offices

theorem findOffice_mem (db : Db) (hwf : OfficeIdsNodup db)
    (o : ValidatedOffice) (ho : o ∈ db.validated_offices) :
    findOffice db o.office_id = some o :=
  find?_key_of_mem (fun x : ValidatedOffice => x.office_id)
    db.validated_offices hwf o ho

theorem get_unsynced_perm (db : Db) :
    db.get_unsynced_offices.Perm
      (db.validated_offices.filter (fun o => o.synced_to_upstream == false)) :=
  List.perm_insertionSort validatedAtLE _

theorem get_unsynced_sorted (db : Db) :
    List.Pairwise validatedAtLE db.get_unsynced_offices :=
  List.sorted_insertionSort validatedAtLE _

theorem get_unsynced_mem (db : Db) (o : ValidatedOffice) :
    o ∈ db.get_unsynced_offices ↔
      o ∈ db.validated_offices ∧ o.synced_to_upstream = false := by
  rw [(get_unsynced_perm db).mem_iff, List.mem_filter]
  constructor
  · intro ⟨h1, h2⟩
    exact ⟨h1, by simpa using h2⟩
  · intro ⟨h1, h2⟩
    exact ⟨h1, by simpa using h2⟩

theorem get_unsynced_ids_nodup (db : Db) (hwf : OfficeIdsNodup db) :
    (db.get_unsynced_offices.map (fun o => o.office_id)).Nodup := by
  apply (((get_unsynced_perm db).map (fun o => o.office_id)).nodup_iff).mpr
  exact hwf.sublist ((List.filter_sublist db.validated_offices).map _)

theorem log_sync_validated (db : Db) (t dir : String) (r : Nat)
    (st : SyncStatus) (e : Option String) (now : Nat) :
    (db.log_sync_operation t dir r st e now).validated_offices =
      db.validated_offices := rfl

/-- The batch loop with no commit failure among the remaining batches:
it returns the total row count and marks exactly the ids of all the
batches. -/
theorem exportBatches_ok (now : Nat) (failK : Option Nat) :
    ∀ (batches : List (List ValidatedOffice)) (sdb : Db)
      (pg : List UpstreamOffice) (idx exported : Nat),
      (∀ j, idx ≤ j → j < idx + batches.length → failK ≠ some j) →
      (exportBatches failK now sdb pg batches idx exported).res =
          .ok (exported + (batches.map List.length).sum) ∧
        (exportBatches failK now sdb pg batches idx exported).db.validated_offices
          = (sdb.mark_offices_synced
              (batches.flatten.map (fun o => o.office_id)) now).validated_offices := by
  intro batches
  induction batches with
  | nil =>
    intro sdb pg idx exported hno
    refine ⟨by simp [exportBatches], ?_⟩
    show (sdb.log_sync_operation "offices_export" "to_upstream" exported
      .completed none now).validated_offices = _
    rw [log_sync_validated, List.flatten_nil, List.map_nil,
      mark_offices_synced_nil]
  | cons batch rest ih =>
    intro sdb pg idx exported hno
    have hne : failK ≠ some idx :=
      hno idx (Nat.le_refl _) (by simp)
    have hbeq : (failK == some idx) = false := by
      cases failK with
      | none => rfl
      | some k => exact beq_eq_false_iff_ne.mpr hne
    simp only [exportBatches, hbeq, Bool.false_eq_true, if_false]
    have hno2 : ∀ j, idx + 1 ≤ j → j < idx + 1 + rest.length →
        failK ≠ some j := by
      intro j h1 h2
      apply hno j (Nat.le_of_succ_le h1)
      have : (batch :: rest).length = rest.length + 1 := rfl
      omega
    have hih := ih
      (sdb.mark_offices_synced (batch.map (fun o => o.office_id)) now)
      (batch.foldl (fun acc o => upsertUpstream acc (voToUpstream o)) pg)
      (idx + 1) (exported + batch.length) hno2
    refine ⟨?_, ?_⟩
    · rw [hih.1, List.map_cons, List.sum_cons, Nat.add_assoc]
    · rw [hih.2, mark_mark, List.flatten_cons, List.map_append]

/-- The batch loop when the commit of batch `k` raises: the run errors
out and exactly the batches before `k` have been marked. -/
theorem exportBatches_fail (now k : Nat) :
    ∀ (batches : List (List ValidatedOffice)) (sdb : Db)
      (pg : List UpstreamOffice) (idx exported : Nat),
      idx ≤ k → k - idx < batches.length →
      (exportBatches (some k) now sdb pg batches idx exported).res =
          .error "commit failed" ∧
        (exportBatches (some k) now sdb pg batches idx exported).db.validated_offices
          = (sdb.mark_offices_synced
              (((batches.take (k - idx)).flatten).map (fun o => o.office_id))
              now).validated_offices := by
  intro batches
  induction batches with
  | nil =>
    intro sdb pg idx exported hle hlt
    simp at hlt
  | cons batch rest ih =>
    intro sdb pg idx exported hle hlt
    by_cases hik : idx = k
    · have hbeq : ((some k : Option Nat) == some idx) = true := by
        subst hik
        exact beq_self_eq_true _
      simp only [exportBatches, hbeq, if_true]
      refine ⟨trivial, ?_⟩
      show (sdb.log_sync_operation "offices_export" "to_upstream" exported
        .failed (some "commit failed") now).validated_offices = _
      have hk0 : k - idx = 0 := by omega
      rw [log_sync_validated, hk0, List.take_zero, List.flatten_nil,
        List.map_nil, mark_offices_synced_nil]
    · have hlt2 : idx < k := Nat.lt_of_le_of_ne hle hik
      have hbeq : ((some k : Option Nat) == some idx) = false := by
        apply beq_eq_false_iff_ne.mpr
        intro hc
        exact hik (Option.some.inj hc).symm
      simp only [exportBatches, hbeq, Bool.false_eq_true, if_false]
      have hih := ih
        (sdb.mark_offices_synced (batch.map (fun o => o.office_id)) now)
        (batch.foldl (fun acc o => upsertUpstream acc (voToUpstream o)) pg)
        (idx + 1) (exported + batch.length) hlt2 ?_
      · refine ⟨hih.1, ?_⟩
        rw [hih.2, mark_mark]
        have hm : k - idx = (k - (idx + 1)) + 1 := by omega
        rw [hm, List.take_succ_cons, List.flatten_cons, List.map_append]
      · have : (batch :: rest).length = rest.length + 1 := rfl
        omega

/-- Claim C4: Export processes the unsynced rows ordered by
`validated_at` in fixed-size batches.  With no commit failure, every
selected row ends marked `synced_to_upstream = true` with `synced_at`
set, rows outside the selection are untouched, the run reports the full
row count, and a second Export call then processes 0 records.  When the
commit of batch `k` raises, the run errors out, the rows of the batches
before `k` remain marked, and the rows of batch `k` and all later
batches are left exactly as they were (unsynced). -/
theorem export_batching_spec (db : Db) (pg : List UpstreamOffice)
    (bs now : Nat) (failK : Option Nat)
    (hwf : OfficeIdsNodup db) (hbs : 0 < bs) :
    List.Pairwise validatedAtLE db.get_unsynced_offices ∧
      ((∀ k, failK = some k →
          (chunks bs db.get_unsynced_offices).length ≤ k) →
        (export_validated_offices db pg bs failK now).res =
            .ok db.get_unsynced_offices.length ∧
          (∀ o ∈ db.get_unsynced_offices,
            findOffice (export_validated_offices db pg bs failK now).db
              o.office_id = some (markedOffice o now)) ∧
          (∀ oid, oid ∉ db.get_unsynced_offices.map (fun o => o.office_id) →
            findOffice (export_validated_offices db pg bs failK now).db oid =
              findOffice db oid) ∧
          (export_validated_offices
            (export_validated_offices db pg bs failK now).db
            (export_validated_offices db pg bs failK now).pg
            bs failK now).res = .ok 0) ∧
      (∀ k, failK = some k →
        k < (chunks bs db.get_unsynced_offices).length →
        (export_validated_offices db pg bs failK now).res =
            .error "commit failed" ∧
          (∀ o ∈ ((chunks bs db.get_unsynced_offices).take k).flatten,
            findOffice (export_validated_offices db pg bs failK now).db
              o.office_id = some (markedOffice o now)) ∧
          (∀ o ∈ ((chunks bs db.get_unsynced_offices).drop k).flatten,
            findOffice (export_validated_offices db pg bs failK now).db
              o.office_id = some o)) := by
  have hflat : (chunks bs db.get_unsynced_offices).flatten =
      db.get_unsynced_offices := chunks_flatten bs hbs _
  refine ⟨get_unsynced_sorted db, ?_, ?_⟩
  · -- no remaining batch fails
    intro hnof
    by_cases hemp : db.get_unsynced_offices.isEmpty = true
    · have hnil : db.get_unsynced_offices = [] := by
        cases h : db.get_unsynced_offices with
        | nil => rfl
        | cons a t => rw [h] at hemp; cases hemp
      have hred := export_empty_aux db pg bs failK now hnil
      have h2 : (export_validated_offices db pg bs failK now).db.get_unsynced_offices = [] := by
        rw [hred]
        exact hnil
      refine ⟨?_, ?_, ?_, ?_⟩
      · rw [hred, hnil]
        rfl
      · intro o ho
        rw [hnil] at ho
        cases ho
      · intro oid hoid
        rw [hred]
        exact findOffice_congr _ _ rfl oid
      · rw [export_empty_aux _ _ bs failK now h2]
    · have hfalse : db.get_unsynced_offices.isEmpty = false :=
        Bool.eq_false_iff.mpr hemp
      have hred : export_validated_offices db pg bs failK now =
          exportBatches failK now
            (db.log_sync_operation "offices_export" "to_upstream" 0
              .started none now) pg
            (chunks bs db.get_unsynced_offices) 0 0 := by
        unfold export_validated_offices
        simp only [get_unsynced_log, hfalse, Bool.false_eq_true, if_false]
      have hnof2 : ∀ j, 0 ≤ j →
          j < 0 + (chunks bs db.get_unsynced_offices).length →
          failK ≠ some j := by
        intro j _ hj hc
        have := hnof j hc
        omega
      have hok := exportBatches_ok now failK
        (chunks bs db.get_unsynced_offices)
        (db.log_sync_operation "offices_export" "to_upstream" 0
          .started none now) pg 0 0 hnof2
      have hsum : ((chunks bs db.get_unsynced_offices).map List.length).sum =
          db.get_unsynced_offices.length := by
        rw [← List.length_flatten, hflat]
      have hmark : ∀ o ∈ db.get_unsynced_offices,
          findOffice (export_validated_offices db pg bs failK now).db
            o.office_id = some (markedOffice o now) := by
        intro o ho
        rw [hred, findOffice_congr _ _ hok.2 o.office_id, findOffice_mark]
        have hfo : findOffice
            (db.log_sync_operation "offices_export" "to_upstream" 0
              .started none now) o.office_id = findOffice db o.office_id := rfl
        rw [hfo, findOffice_mem db hwf o ((get_unsynced_mem db o).mp ho).1]
        show some (markFn _ now o) = _
        unfold markFn
        rw [if_pos (contains_of_mem _ _ ?_)]
        rw [hflat]
        exact List.mem_map_of_mem _ ho
      have hempty2 :
          (export_validated_offices db pg bs failK now).db.get_unsynced_offices
            = [] := by
        rw [hred]
        show List.insertionSort validatedAtLE
          ((exportBatches failK now _ pg _ 0 0).db.validated_offices.filter
            (fun o => o.synced_to_upstream == false)) = []
        have hfil : (exportBatches failK now
            (db.log_sync_operation "offices_export" "to_upstream" 0
              .started none now) pg
            (chunks bs db.get_unsynced_offices) 0 0).db.validated_offices.filter
              (fun o => o.synced_to_upstream == false) = [] := by
          rw [hok.2, mark_offices_synced_validated]
          apply List.filter_eq_nil_iff.mpr
          intro x hx hpx
          rcases List.mem_map.mp hx with ⟨o, hol, hxo⟩
          subst hxo
          by_cases hc : ((chunks bs db.get_unsynced_offices).flatten.map
              (fun o => o.office_id)).contains o.office_id = true
          · unfold markFn at hpx
            rw [if_pos hc] at hpx
            simp [markedOffice] at hpx
          · unfold markFn at hpx
            rw [if_neg hc] at hpx
            apply hc
            apply contains_of_mem
            rw [hflat]
            apply List.mem_map_of_mem
            exact (get_unsynced_mem db o).mpr ⟨hol, by simpa using hpx⟩
        rw [hfil]
        rfl
      refine ⟨?_, hmark, ?_, ?_⟩
      · rw [hred, hok.1, Nat.zero_add, hsum]
      · intro oid hoid
        rw [hred, findOffice_congr _ _ hok.2 oid, findOffice_mark]
        have hfo : findOffice
            (db.log_sync_operation "offices_export" "to_upstream" 0
              .started none now) oid = findOffice db oid := rfl
        rw [hfo]
        cases hfd : findOffice db oid with
        | none => rfl
        | some o2 =>
          have hfd2 : db.validated_offices.find?
              (fun x => x.office_id == oid) = some o2 := hfd
          have hido := List.find?_some hfd2
          have hid2 : o2.office_id = oid := by simpa using hido
          show some (markFn _ now o2) = some o2
          unfold markFn
          rw [if_neg ?_]
          rw [hflat, hid2]
          intro hcon
          exact hoid (by simpa using hcon)
      · rw [export_empty_aux _ _ bs failK now hempty2]
  · -- the commit of batch k raises
    intro k hk hklt
    have hne : db.get_unsynced_offices.isEmpty = false := by
      cases h : db.get_unsynced_offices with
      | nil =>
        rw [h] at hklt
        cases hklt
      | cons a t => rfl
    have hred : export_validated_offices db pg bs failK now =
        exportBatches failK now
          (db.log_sync_operation "offices_export" "to_upstream" 0
            .started none now) pg
          (chunks bs db.get_unsynced_offices) 0 0 := by
      unfold export_validated_offices
      simp only [get_unsynced_log, hne, Bool.false_eq_true, if_false]
    subst hk
    have hfail := exportBatches_fail now k
      (chunks bs db.get_unsynced_offices)
      (db.log_sync_operation "offices_export" "to_upstream" 0
        .started none now) pg 0 0 (Nat.zero_le k) (by simpa using hklt)
    have hsub0 : k - 0 = k := Nat.sub_zero k
    rw [hsub0] at hfail
    have hsplit : db.get_unsynced_offices =
        ((chunks bs db.get_unsynced_offices).take k).flatten ++
          ((chunks bs db.get_unsynced_offices).drop k).flatten := by
      rw [← List.flatten_append, List.take_append_drop, hflat]
    refine ⟨?_, ?_, ?_⟩
    · rw [hred, hfail.1]
    · intro o ho
      have homem : o ∈ db.get_unsynced_offices := by
        rw [hsplit]
        exact List.mem_append_left _ ho
      rw [hred, findOffice_congr _ _ hfail.2 o.office_id, findOffice_mark]
      have hfo : findOffice
          (db.log_sync_operation "offices_export" "to_upstream" 0
            .started none now) o.office_id = findOffice db o.office_id := rfl
      rw [hfo, findOffice_mem db hwf o ((get_unsynced_mem db o).mp homem).1]
      show some (markFn _ now o) = _
      unfold markFn
      rw [if_pos (contains_of_mem _ _ (List.mem_map_of_mem _ ho))]
    · intro o ho
      have homem : o ∈ db.get_unsynced_offices := by
        rw [hsplit]
        exact List.mem_append_right _ ho
      rw [hred, findOffice_congr _ _ hfail.2 o.office_id, findOffice_mark]
      have hfo : findOffice
          (db.log_sync_operation "offices_export" "to_upstream" 0
            .started none now) o.office_id = findOffice db o.office_id := rfl
      rw [hfo, findOffice_mem db hwf o ((get_unsynced_mem db o).mp homem).1]
      show some (markFn _ now o) = _
      unfold markFn
      rw [if_neg ?_]
      have hids : (db.get_unsynced_offices.map (fun x => x.office_id)).Nodup :=
        get_unsynced_ids_nodup db hwf
      rw [hsplit, List.map_append] at hids
      rcases List.nodup_append.mp hids with ⟨-, -, hdisj⟩
      intro hcon
      exact hdisj (by simpa using hcon) (List.mem_map_of_mem _ ho)

/-- Witness for C4: two unsynced offices, batch size 1, no failure —
the run processes 2 records and a second run processes 0. -/
theorem export_batching_spec_witness :
    OfficeIdsNodup dbTwoUnsynced ∧ 0 < 1 ∧
      (export_validated_offices dbTwoUnsynced [] 1 none 500).res = .ok 2 ∧
      (export_validated_offices
        (export_validated_offices dbTwoUnsynced [] 1 none 500).db
        (export_validated_offices dbTwoUnsynced [] 1 none 500).pg
        1 none 500).res = .ok 0 := by
  have hwf : OfficeIdsNodup dbTwoUnsynced := by
    unfold OfficeIdsNodup
    decide
  have h := export_batching_spec dbTwoUnsynced [] 1 500 none hwf
    (by decide)
  have hno : ∀ k, (none : Option Nat) = some k →
      (chunks 1 dbTwoUnsynced.get_unsynced_offices).length ≤ k := by
    intro k hc
    cases hc
  have ha := h.2.1 hno
  exact ⟨hwf, by decide, ha.1, ha.2.2.2⟩

end DistrictOffices
